import Mathlib

/-!
Event pipeline of the hot-reload engine (`engine/watch.go`, `engine/event.go`)

A shallow embedding of the consumer loop `watchEvents`, of `checkDebounce`,
`getPath`, `stripCurrentDirectory` and of `Engine.watch`.

Modelling choices

* `time.Time` is an instant on one integer timeline, counted in nanoseconds
  from the zero `Time` (the value of `var debounceTime time.Time`).
  `Time.Add` is addition and `Time.After` is the strict order.
* `time.Duration` is a signed 64 bit count of nanoseconds; the product
  `time.Duration(Debounce) * time.Millisecond` wraps as an `int64` does.
* `time.Now()` is an input: every received event carries the reading of the
  clock at each of the three places of the loop body that call it.
* Everything the loop does to the outside (a `slog` line, a call of the
  hook, a call of the ignore filter, a call of `reloadProcess`) is recorded,
  in program order, in a list of `Effect`s.
* The channel is a list: the events the loop has received so far.
* Tables and collaborators that live outside these two files (`eventMap`,
  `CallbackMap`, `os.Getwd`, `filepath.Rel`, `notify.Watch`, the ignore
  filter) are parameters.
-/

namespace Refresh

/-! ## Time -/

/-- An instant: nanoseconds since the zero `time.Time`. -/
abbrev Time := Int

/-- A `time.Duration`: nanoseconds. -/
abbrev Duration := Int

/-- The zero value of `time.Time`. -/
def Time.zero : Time := 0

/-- The instant `t.Add(d)`. -/
def Time.Add (t : Time) (d : Duration) : Time := t + d

/-- The test `t.After(u)`. -/
def Time.After (t u : Time) : Bool := decide (u < t)

/-- The constant `time.Millisecond`. -/
def Millisecond : Duration := 1000000

/-- Two's complement wrap of an integer to `int64`. -/
def wrapInt64 (x : Int) : Int := (x + 2 ^ 63) % 2 ^ 64 - 2 ^ 63

/-- The value of `time.Duration(engine.Config.Debounce) * time.Millisecond`
(watch.go line 29). -/
def debounceThreshold (Debounce : Int) : Duration :=
  wrapInt64 (wrapInt64 Debounce * Millisecond)

/-! ## event.go -/

/-- The struct `EventInfo`. -/
structure EventInfo where
  Name : String
  Reload : Bool
  deriving DecidableEq, Repr

/-- The type `Event` (an `int` enumeration). -/
abbrev Event := Int

def Create : Event := 0
def Write : Event := 1
def Remove : Event := 2
def Rename : Event := 3
def ActionModified : Event := 4
def ActionRenamedNewName : Event := 5
def ActionRenamedOldName : Event := 6
def ActionAdded : Event := 7
def ActionRemoved : Event := 8
def ChangeLastWrite : Event := 9
def ChangeAttributes : Event := 10
def ChangeSize : Event := 11
def ChangeDirName : Event := 12
def ChangeFileName : Event := 13
def ChangeSecurity : Event := 14
def ChangeCreation : Event := 15
def ChangeLastAccess : Event := 16
def InCloseWrite : Event := 17
def InModify : Event := 18
def InMovedTo : Event := 19
def InMovedFrom : Event := 20
def InCreate : Event := 21
def InDelete : Event := 22

/-- The struct `EventCallback` handed to the hook (`Typ` is the field `Type`). -/
structure EventCallback where
  Typ : Event
  Time : Time
  Path : String
  deriving DecidableEq, Repr

/-- The type `EventHandle` (an `int`). -/
abbrev EventHandle := Int

def EventContinue : EventHandle := 0
def EventBypass : EventHandle := 1
def EventIgnore : EventHandle := 2

/-! ## Collaborators -/

/-- A value of `notify.EventInfo`: the raw event code and the path. -/
structure NotifyEvent where
  Event : Nat
  Path : String
  deriving DecidableEq, Repr

/-- The ignore rules: only the method `checkIgnore` is used by the loop. -/
structure Ignore where
  checkIgnore : String → Bool

/-- The fields of `engine.Config` that `watch.go` reads. -/
structure Config where
  RootPath : String
  Debounce : Int
  Callback : Option (EventCallback → EventHandle)
  Ignore : Ignore

/-- The tables and library calls `watch.go` uses and does not define:
the maps `eventMap` and `CallbackMap`, `os.Getwd`, `filepath.Rel` and the
error (if any) of `notify.Watch` on a path. -/
structure World where
  eventMap : Nat → Option EventInfo
  CallbackMap : Nat → Option Event
  Getwd : Except String String
  Rel : String → String → Except String String
  Watch : String → Option String

/-- The readings of `time.Now()` while one event is processed: in the
`EventCallback` literal (line 41), inside `checkDebounce` (line 79) and in
the assignment to `debounceTime` (line 63). -/
structure Clock where
  callback : Time
  check : Time
  set : Time
  deriving DecidableEq, Repr

/-- One receive `ei := <-e` together with the clock during its processing. -/
structure Received where
  ei : NotifyEvent
  now : Clock
  deriving DecidableEq, Repr

/-- Severity of a `slog` line. -/
inductive Level where
  | Debug
  | Info
  | Warn
  | Error
  deriving DecidableEq, Repr

/-- An argument of a `fmt.Sprintf` call. -/
inductive Arg where
  | str (s : String)
  | event (code : Nat)
  | time (t : Time)
  deriving DecidableEq, Repr

/-- What the engine does to the outside. -/
inductive Effect where
  | slog (level : Level) (format : String) (args : List Arg)
  | Callback (arg : EventCallback)
  | checkIgnore (path : String)
  | reloadProcess
  deriving DecidableEq, Repr

/-- Whether an effect is a call `engine.reloadProcess()`. -/
def Effect.isReload : Effect → Bool
  | .reloadProcess => true
  | _ => false

/-- Whether an effect is a call of the hook. -/
def Effect.isCallback : Effect → Bool
  | .Callback _ => true
  | _ => false

/-- Whether an effect is a call of the ignore filter. -/
def Effect.isCheckIgnore : Effect → Bool
  | .checkIgnore _ => true
  | _ => false

/-! ## watch.go -/

/-- The function `checkDebounce`; `now` is the reading of `time.Now()`. -/
def checkDebounce (now : Time) (debounceTime : Time) (debounceThreshold : Duration) : Bool :=
  Time.After now (Time.Add debounceTime debounceThreshold)

/-- The function `stripCurrentDirectory`. -/
def stripCurrentDirectory (w : World) (fullPath currentDirectory : String) :
    Except String String :=
  match w.Rel currentDirectory fullPath with
  | .error err => .error err
  | .ok relativePath => .ok relativePath

/-- The function `getPath`: the returned string and the lines it logs. -/
def getPath (w : World) (path : String) : String × List Effect :=
  match w.Getwd with
  | .error err =>
    ("", [Effect.slog Level.Error "Error getting working directory: %s" [Arg.str err]])
  | .ok wd =>
    match stripCurrentDirectory w path wd with
    | .error err =>
      ("", [Effect.slog Level.Error "Error stripping current directory: %s" [Arg.str err]])
    | .ok relPath => (relPath, [])

/-- The state after one turn of the loop and what the turn did. -/
structure Outcome where
  debounceTime : Time
  effects : List Effect
  deriving DecidableEq, Repr

/-- One turn of the `for` loop of `watchEvents` (lines 31 to 74) on the
received event `r`, from the value `debounceTime` of the loop variable. -/
def watchEventsTurn (w : World) (cfg : Config) (debounceThreshold : Duration)
    (debounceTime : Time) (r : Received) : Outcome :=
  match w.eventMap r.ei.Event with
  | none =>
    ⟨debounceTime, [Effect.slog Level.Error "Unknown Event: %s" [Arg.event r.ei.Event]]⟩
  | some eventInfo =>
    let hook : List Effect × Option EventHandle :=
      match cfg.Callback with
      | none => ([], none)
      | some cb =>
        let event := (w.CallbackMap r.ei.Event).getD 0
        let p := getPath w r.ei.Path
        let arg : EventCallback := ⟨event, r.now.callback, p.1⟩
        (p.2 ++ [Effect.Callback arg], some (cb arg))
    if hook.2 = some EventBypass then
      ⟨debounceTime, hook.1 ++
        [Effect.slog Level.Debug "Bypassing all rulesets and reloading process..." [],
         Effect.reloadProcess]⟩
    else if hook.2 = some EventIgnore then
      ⟨debounceTime, hook.1⟩
    else if eventInfo.Reload then
      if cfg.Ignore.checkIgnore r.ei.Path then
        ⟨debounceTime, hook.1 ++
          [Effect.checkIgnore r.ei.Path,
           Effect.slog Level.Debug "Ignoring %s change: %s"
             [Arg.event r.ei.Event, Arg.str r.ei.Path]]⟩
      else if checkDebounce r.now.check debounceTime debounceThreshold then
        let p := getPath w r.ei.Path
        ⟨r.now.set, hook.1 ++
          [Effect.checkIgnore r.ei.Path,
           Effect.slog Level.Debug "Debounce Timer Start: %v" [Arg.time r.now.set]] ++
          p.2 ++
          [Effect.slog Level.Info "File Modified: %s" [Arg.str p.1],
           Effect.slog Level.Info "Reloading process..." [],
           Effect.reloadProcess]⟩
      else
        ⟨debounceTime, hook.1 ++
          [Effect.checkIgnore r.ei.Path,
           Effect.slog Level.Debug "Debouncing file change: %s" [Arg.str r.ei.Path]]⟩
    else
      ⟨debounceTime, hook.1⟩

/-- The `for` loop of `watchEvents` over the events received so far, from a
given value of `debounceTime`: one `Outcome` per event, in order. -/
def watchEventsLoop (w : World) (cfg : Config) (debounceThreshold : Duration) :
    Time → List Received → List Outcome
  | _, [] => []
  | debounceTime, r :: rest =>
    let o := watchEventsTurn w cfg debounceThreshold debounceTime r
    o :: watchEventsLoop w cfg debounceThreshold o.debounceTime rest

/-- The function `watchEvents`: `debounceTime` starts at the zero `Time` and
the threshold is computed once from the configuration. -/
def watchEvents (w : World) (cfg : Config) (e : List Received) : List Outcome :=
  watchEventsLoop w cfg (debounceThreshold cfg.Debounce) Time.zero e

/-- The method `Engine.watch`: the process is started, the watcher is mounted
(an error is logged), and the loop runs on the channel. The deferred
`notify.Stop` is not reached because the loop does not return. -/
def watch (w : World) (cfg : Config) (chan : List Received) : List Effect :=
  [Effect.reloadProcess] ++
  (match w.Watch (cfg.RootPath ++ "/...") with
   | some err => [Effect.slog Level.Error "Error creating watcher: %s" [Arg.str err]]
   | none => []) ++
  [Effect.slog Level.Warn "Watching for file changes..." []] ++
  ((watchEvents w cfg chan).map Outcome.effects).flatten

/-! ## Observations on a run -/

/-- Number of calls of `reloadProcess` in a list of effects. -/
def restartCount (fx : List Effect) : Nat := (fx.filter Effect.isReload).length

/-- Number of restarts issued in one turn. -/
def Outcome.restarts (o : Outcome) : Nat := restartCount o.effects

/-- Whether the turn issued a restart. -/
def Outcome.restarted (o : Outcome) : Bool := decide (0 < o.restarts)

/-- Number of restarts issued over a run. -/
def totalRestarts (os : List Outcome) : Nat := (os.map Outcome.restarts).sum

/-- An event whose processing sees the clock at the single instant `t`. -/
def receivedAt (ei : NotifyEvent) (t : Time) : Received := ⟨ei, ⟨t, t, t⟩⟩

/-- The `EventCallback` value the loop builds for the event `r` (lines 38 to 43). -/
def callbackArg (w : World) (r : Received) : EventCallback :=
  ⟨(w.CallbackMap r.ei.Event).getD 0, r.now.callback, (getPath w r.ei.Path).1⟩

/-- There is no hook, or the hook answers `EventContinue` on the event `r`. -/
def hookContinues (w : World) (cfg : Config) (r : Received) : Prop :=
  match cfg.Callback with
  | none => True
  | some cb => cb (callbackArg w r) = EventContinue

/-- The effects of lines 37 to 43: the lines `getPath` logs and the call of
the hook; nothing when no hook is configured. -/
def hookEffects (w : World) (cfg : Config) (r : Received) : List Effect :=
  match cfg.Callback with
  | none => []
  | some _ => (getPath w r.ei.Path).2 ++ [Effect.Callback (callbackArg w r)]

/-- Lines 55 to 74: what the loop does once the hook has not short-circuited. -/
def defaultRules (w : World) (cfg : Config) (W : Duration) (dt : Time) (r : Received)
    (info : EventInfo) : Outcome :=
  if info.Reload then
    if cfg.Ignore.checkIgnore r.ei.Path then
      ⟨dt, hookEffects w cfg r ++
        [Effect.checkIgnore r.ei.Path,
         Effect.slog Level.Debug "Ignoring %s change: %s"
           [Arg.event r.ei.Event, Arg.str r.ei.Path]]⟩
    else if checkDebounce r.now.check dt W then
      ⟨r.now.set, hookEffects w cfg r ++
        [Effect.checkIgnore r.ei.Path,
         Effect.slog Level.Debug "Debounce Timer Start: %v" [Arg.time r.now.set]] ++
        (getPath w r.ei.Path).2 ++
        [Effect.slog Level.Info "File Modified: %s" [Arg.str (getPath w r.ei.Path).1],
         Effect.slog Level.Info "Reloading process..." [],
         Effect.reloadProcess]⟩
    else
      ⟨dt, hookEffects w cfg r ++
        [Effect.checkIgnore r.ei.Path,
         Effect.slog Level.Debug "Debouncing file change: %s" [Arg.str r.ei.Path]]⟩
  else
    ⟨dt, hookEffects w cfg r⟩

/-- The line logged for an event whose code is not classified. -/
def unknownEventLine (code : Nat) : Effect :=
  Effect.slog Level.Error "Unknown Event: %s" [Arg.event code]

/-- The Unix epoch on the timeline: 62135596800 seconds after the zero
`Time` (the constant `unixToInternal` of package `time`). The system clock
read by `time.Now()` does not read earlier than this. -/
def unixEpoch : Time := 62135596800 * 1000000000

/-- The answer of the hook on the event `r`, if a hook is configured. -/
def hookAnswer (w : World) (cfg : Config) (r : Received) : Option EventHandle :=
  cfg.Callback.map (fun cb => cb (callbackArg w r))

/-- The turn reaches the debounce check (line 62) and the check passes: the
code is classified, the hook (if any) answers neither `EventBypass` nor
`EventIgnore`, the entry reloads, the path is not ignored, and
`checkDebounce` is true. -/
def accepts (w : World) (cfg : Config) (W : Duration) (dt : Time) (r : Received) : Bool :=
  match w.eventMap r.ei.Event with
  | none => false
  | some info =>
    !(hookAnswer w cfg r == some EventBypass) && !(hookAnswer w cfg r == some EventIgnore)
      && info.Reload && !(cfg.Ignore.checkIgnore r.ei.Path)
      && checkDebounce r.now.check dt W

/-- The turn restarts through the hook: the code is classified and the hook
answers `EventBypass`. -/
def bypasses (w : World) (cfg : Config) (r : Received) : Bool :=
  (w.eventMap r.ei.Event).isSome && (hookAnswer w cfg r == some EventBypass)

/-- The event is reload-eligible and not ignored: its code has an entry with
`Reload = true` and the ignore filter does not match its path. -/
def eligible (w : World) (cfg : Config) (r : Received) : Bool :=
  match w.eventMap r.ei.Event with
  | none => false
  | some info => info.Reload && !(cfg.Ignore.checkIgnore r.ei.Path)

/-- The places where the loop gives a path out: the `Path` field handed to
the hook, and the three log lines that print a path. -/
inductive PathUse where
  | hook
  | ignoredLine
  | debouncedLine
  | fileModifiedLine
  deriving DecidableEq, Repr

/-- The path an effect gives out, and where: the argument of the hook, or
the path argument of the lines `Ignoring %s change: %s` (line 58),
`Debouncing file change: %s` (line 66) and `File Modified: %s` (line 71). -/
def Effect.pathUse : Effect → Option (PathUse × String)
  | .Callback arg => some (PathUse.hook, arg.Path)
  | .slog _ format [Arg.event _, Arg.str p] =>
    if format = "Ignoring %s change: %s" then some (PathUse.ignoredLine, p) else none
  | .slog _ format [Arg.str p] =>
    if format = "Debouncing file change: %s" then some (PathUse.debouncedLine, p)
    else if format = "File Modified: %s" then some (PathUse.fileModifiedLine, p)
    else none
  | _ => none

/-- The paths an effect of the turn on `r` gives out are the ones the code
writes: `getPath` of the raw path for the hook and the file-modified line,
the raw path for the two debug lines. -/
def pathsAsInCode (w : World) (r : Received) (fx : Effect) : Prop :=
  ∀ (u : PathUse) (p : String), fx.pathUse = some (u, p) →
    ((u = PathUse.hook ∨ u = PathUse.fileModifiedLine) ∧ p = (getPath w r.ei.Path).1) ∨
    ((u = PathUse.ignoredLine ∨ u = PathUse.debouncedLine) ∧ p = r.ei.Path)

/-- The readings of the clock over a run, in program order. -/
def clockReadings : List Received → List Time
  | [] => []
  | r :: rest => r.now.callback :: r.now.check :: r.now.set :: clockReadings rest

/-- The clock does not go backwards over the readings `ts`. -/
def nonDecreasing (ts : List Time) : Prop := List.Pairwise (fun a b => a ≤ b) ts

/-- The debounce timestamps recorded by the turns that restarted, in order. -/
def acceptedStamps (os : List Outcome) : List Time :=
  (os.filter Outcome.restarted).map Outcome.debounceTime

/-! ## A small concrete world, used to run the scenarios -/

/-- Modelled from the spec: a classification table (the files
`eventmap_[os].go` are not part of the sources at hand) in which a write
reloads and a remove or a rename does not; the raw codes 1, 2, 3 are
placeholders for the codes of the watcher library. -/
def demoEventMap (code : Nat) : Option EventInfo :=
  if code = 1 then some ⟨"Write", true⟩
  else if code = 2 then some ⟨"Remove", false⟩
  else if code = 3 then some ⟨"Rename", false⟩
  else none

/-- Modelled from the spec: the table of event kinds handed to the hook,
for the same placeholder codes as `demoEventMap`. -/
def demoCallbackMap (code : Nat) : Option Event :=
  if code = 1 then some Write
  else if code = 2 then some Remove
  else if code = 3 then some Rename
  else none

/-- A stand-in for `filepath.Rel`: strips the directory and one separator
from the front of the path, and fails when the path is not under it. -/
def demoRel (currentDirectory fullPath : String) : Except String String :=
  let base := currentDirectory.toList ++ ['/']
  if base.isPrefixOf fullPath.toList then
    .ok (String.mk (fullPath.toList.drop base.length))
  else .error "Rel: path is not under the directory"

/-- A world where the working directory is `/proj` and mounting succeeds. -/
def demoWorld : World :=
  ⟨demoEventMap, demoCallbackMap, .ok "/proj", demoRel, fun _ => none⟩

/-- The same world, except that `notify.Watch` fails on every path. -/
def demoWorldNoMount : World :=
  ⟨demoEventMap, demoCallbackMap, .ok "/proj", demoRel, fun _ => some "no such file or directory"⟩

/-- An ignore filter for the pattern `*.log`. -/
def demoIgnoreLog : Ignore := ⟨fun path => ".log".toList.isSuffixOf path.toList⟩

/-- An ignore filter without rules. -/
def demoIgnoreNothing : Ignore := ⟨fun _ => false⟩

/-- A write of `/proj/main.go`. -/
def demoWrite : NotifyEvent := ⟨1, "/proj/main.go"⟩

/-- A remove of `/proj/main.go`. -/
def demoRemove : NotifyEvent := ⟨2, "/proj/main.go"⟩

/-- A write of `/proj/app.log`. -/
def demoWriteLog : NotifyEvent := ⟨1, "/proj/app.log"⟩

/-- An event with a code the table does not know. -/
def demoUnknown : NotifyEvent := ⟨77, "/proj/main.go"⟩

/-- An instant well after the zero `Time`: the Unix epoch. -/
def demoBase : Time := 62135596800 * 1000000000

/-- Path normalization fails for `path`: `os.Getwd` returns an error, or
`stripCurrentDirectory` does. -/
def normalizationFails (w : World) (path : String) : Bool :=
  match w.Getwd with
  | .error _ => true
  | .ok wd =>
    match stripCurrentDirectory w path wd with
    | .error _ => true
    | .ok _ => false

/-- A world where the working directory cannot be read. -/
def demoWorldNoWd : World :=
  ⟨demoEventMap, demoCallbackMap, .error "getwd: no such file or directory", demoRel,
    fun _ => none⟩

/-- A world whose `CallbackMap` has no entry at all. -/
def demoWorldNoKinds : World :=
  ⟨demoEventMap, fun _ => none, .ok "/proj", demoRel, fun _ => none⟩

/-- A write whose debounce check reads the clock at `demoBase` and whose
assignment to `debounceTime` reads it one microsecond later. -/
def demoWriteLateSet : Received := ⟨demoWrite, ⟨demoBase, demoBase, demoBase + 1000⟩⟩

/-- No hook, no ignore rules, and `Debounce = -1`. -/
def demoConfigNegative : Config := ⟨"/proj", -1, none, demoIgnoreNothing⟩

/-- No hook, no ignore rules, a debounce window of 100 ms. -/
def demoConfig : Config := ⟨"/proj", 100, none, demoIgnoreNothing⟩

/-- No hook, the ignore pattern `*.log`, a debounce window of 100 ms. -/
def demoConfigLog : Config := ⟨"/proj", 100, none, demoIgnoreLog⟩

/-- A hook that always answers `EventBypass`; the ignore pattern `*.log`. -/
def demoConfigBypass : Config := ⟨"/proj", 100, some (fun _ => EventBypass), demoIgnoreLog⟩

/-- A hook that always answers `EventIgnore`; no ignore rules. -/
def demoConfigIgnore : Config := ⟨"/proj", 100, some (fun _ => EventIgnore), demoIgnoreNothing⟩

/-- A hook that always answers `EventContinue`; the ignore pattern `*.log`. -/
def demoConfigContinue : Config :=
  ⟨"/proj", 100, some (fun _ => EventContinue), demoIgnoreLog⟩

/-! ## Auxiliary facts -/

theorem restartCount_nil : restartCount [] = 0 := rfl

theorem restartCount_append (a b : List Effect) :
    restartCount (a ++ b) = restartCount a + restartCount b := by
  simp [restartCount, List.filter_append]

theorem restartCount_cons (x : Effect) (a : List Effect) :
    restartCount (x :: a) = (if x.isReload then 1 else 0) + restartCount a := by
  cases h : x.isReload <;> simp [restartCount, List.filter_cons, h, Nat.add_comm]

theorem getPath_no_restart (w : World) (path : String) :
    restartCount (getPath w path).2 = 0 := by
  unfold getPath
  split
  · rfl
  · split <;> rfl

theorem getPath_no_checkIgnore (w : World) (path : String) :
    (getPath w path).2.filter Effect.isCheckIgnore = [] := by
  unfold getPath
  split
  · rfl
  · split <;> rfl

theorem checkDebounce_eq_true_iff (now debounceTime threshold : Int) :
    checkDebounce now debounceTime threshold = true ↔ debounceTime + threshold < now := by
  simp [checkDebounce, Time.After, Time.Add]

theorem checkDebounce_eq_false_iff (now debounceTime threshold : Int) :
    checkDebounce now debounceTime threshold = false ↔ now ≤ debounceTime + threshold := by
  simp [checkDebounce, Time.After, Time.Add]

/-- The turn on a classified event when the hook answers `EventBypass`. -/
theorem turn_of_bypass (w : World) (cfg : Config) (W : Duration) (dt : Time) (r : Received)
    (info : EventInfo) (cb : EventCallback → EventHandle)
    (hmap : w.eventMap r.ei.Event = some info) (hcb : cfg.Callback = some cb)
    (hret : cb (callbackArg w r) = EventBypass) :
    watchEventsTurn w cfg W dt r =
      ⟨dt, (getPath w r.ei.Path).2 ++
        [Effect.Callback (callbackArg w r),
         Effect.slog Level.Debug "Bypassing all rulesets and reloading process..." [],
         Effect.reloadProcess]⟩ := by
  unfold callbackArg at hret
  simp [watchEventsTurn, hmap, hcb, hret, callbackArg]

/-- The turn on a classified event when the hook answers `EventIgnore`. -/
theorem turn_of_ignore (w : World) (cfg : Config) (W : Duration) (dt : Time) (r : Received)
    (info : EventInfo) (cb : EventCallback → EventHandle)
    (hmap : w.eventMap r.ei.Event = some info) (hcb : cfg.Callback = some cb)
    (hret : cb (callbackArg w r) = EventIgnore) :
    watchEventsTurn w cfg W dt r =
      ⟨dt, (getPath w r.ei.Path).2 ++ [Effect.Callback (callbackArg w r)]⟩ := by
  unfold callbackArg at hret
  simp [watchEventsTurn, hmap, hcb, hret, callbackArg, EventIgnore, EventBypass]

/-- The turn on an event whose code is not in `eventMap`. -/
theorem turn_of_unmapped (w : World) (cfg : Config) (W : Duration) (dt : Time) (r : Received)
    (hmap : w.eventMap r.ei.Event = none) :
    watchEventsTurn w cfg W dt r =
      ⟨dt, [Effect.slog Level.Error "Unknown Event: %s" [Arg.event r.ei.Event]]⟩ := by
  simp [watchEventsTurn, hmap]

theorem hookEffects_no_restart (w : World) (cfg : Config) (r : Received) :
    restartCount (hookEffects w cfg r) = 0 := by
  unfold hookEffects
  split
  · rfl
  · simp [restartCount_append, getPath_no_restart, restartCount_cons, Effect.isReload,
      restartCount_nil]

/-- Without a hook a classified event falls through to lines 55 to 74. -/
theorem turn_of_no_hook (w : World) (cfg : Config) (W : Duration) (dt : Time) (r : Received)
    (info : EventInfo) (hmap : w.eventMap r.ei.Event = some info)
    (hcb : cfg.Callback = none) :
    watchEventsTurn w cfg W dt r = defaultRules w cfg W dt r info := by
  simp [watchEventsTurn, defaultRules, hookEffects, hmap, hcb]

/-- With a hook answering neither `EventBypass` nor `EventIgnore` a
classified event falls through to lines 55 to 74. -/
theorem turn_of_fallthrough (w : World) (cfg : Config) (W : Duration) (dt : Time)
    (r : Received) (info : EventInfo) (cb : EventCallback → EventHandle)
    (hmap : w.eventMap r.ei.Event = some info) (hcb : cfg.Callback = some cb)
    (h1 : cb (callbackArg w r) ≠ EventBypass) (h2 : cb (callbackArg w r) ≠ EventIgnore) :
    watchEventsTurn w cfg W dt r = defaultRules w cfg W dt r info := by
  unfold callbackArg at h1 h2
  simp [watchEventsTurn, defaultRules, hookEffects, hmap, hcb, h1, h2, callbackArg]

/-- A hook that continues, or no hook: the event falls through. -/
theorem turn_of_continue (w : World) (cfg : Config) (W : Duration) (dt : Time)
    (r : Received) (info : EventInfo) (hmap : w.eventMap r.ei.Event = some info)
    (hc : hookContinues w cfg r) :
    watchEventsTurn w cfg W dt r = defaultRules w cfg W dt r info := by
  unfold hookContinues at hc
  cases hcb : cfg.Callback with
  | none => exact turn_of_no_hook w cfg W dt r info hmap hcb
  | some cb =>
    rw [hcb] at hc
    simp only at hc
    apply turn_of_fallthrough w cfg W dt r info cb hmap hcb
    · rw [hc]; decide
    · rw [hc]; decide

theorem getPath_no_unknownEventLine (w : World) (path : String) (code : Nat) :
    Effect.slog Level.Error "Unknown Event: %s" [Arg.event code] ∉ (getPath w path).2 := by
  unfold getPath
  split
  · simp
  · split <;> simp

theorem hookEffects_no_unknownEventLine (w : World) (cfg : Config) (r : Received)
    (code : Nat) :
    Effect.slog Level.Error "Unknown Event: %s" [Arg.event code] ∉ hookEffects w cfg r := by
  unfold hookEffects
  split
  · simp
  · simp [getPath_no_unknownEventLine]

/-- A classified event never makes the turn log the line for unknown events. -/
theorem turn_classified_no_unknownEventLine (w : World) (cfg : Config) (W : Duration)
    (dt : Time) (r : Received) (info : EventInfo)
    (hmap : w.eventMap r.ei.Event = some info) (code : Nat) :
    unknownEventLine code ∉ (watchEventsTurn w cfg W dt r).effects := by
  cases hcb : cfg.Callback with
  | none =>
    rw [turn_of_no_hook w cfg W dt r info hmap hcb]
    unfold defaultRules
    split_ifs <;>
      simp [hookEffects_no_unknownEventLine, getPath_no_unknownEventLine, unknownEventLine]
  | some cb =>
    by_cases h1 : cb (callbackArg w r) = EventBypass
    · rw [turn_of_bypass w cfg W dt r info cb hmap hcb h1]
      simp [getPath_no_unknownEventLine, unknownEventLine]
    · by_cases h2 : cb (callbackArg w r) = EventIgnore
      · rw [turn_of_ignore w cfg W dt r info cb hmap hcb h2]
        simp [getPath_no_unknownEventLine, unknownEventLine]
      · rw [turn_of_fallthrough w cfg W dt r info cb hmap hcb h1 h2]
        unfold defaultRules
        split_ifs <;>
          simp [hookEffects_no_unknownEventLine, getPath_no_unknownEventLine,
            unknownEventLine]

/-- The turn reads `eventMap` only at the code of the event. -/
theorem turn_eventMap_entry (w : World) (cfg : Config) (W : Duration) (dt : Time)
    (r : Received) (info : EventInfo) (hmap : w.eventMap r.ei.Event = some info) :
    watchEventsTurn w cfg W dt r =
      watchEventsTurn { w with eventMap := fun _ => some info } cfg W dt r := by
  simp [watchEventsTurn, hmap, getPath, stripCurrentDirectory]

/-- The timestamp and the restart count of lines 55 to 74 do not depend on
the hook. -/
theorem defaultRules_hook_irrelevant (w : World) (cfg : Config) (W : Duration) (dt : Time)
    (r : Received) (info : EventInfo) (hook : Option (EventCallback → EventHandle)) :
    (defaultRules w { cfg with Callback := hook } W dt r info).debounceTime =
        (defaultRules w cfg W dt r info).debounceTime ∧
    (defaultRules w { cfg with Callback := hook } W dt r info).restarts =
        (defaultRules w cfg W dt r info).restarts := by
  unfold defaultRules
  split_ifs <;>
    simp [Outcome.restarts, restartCount_append, restartCount_cons, restartCount_nil,
      hookEffects_no_restart, getPath_no_restart, Effect.isReload]

/-- One turn without hook and one turn with a hook that always answers
`EventContinue` agree on the timestamp and on the restart count. -/
theorem turn_no_hook_vs_continue (w : World) (cfg : Config) (W : Duration) (dt : Time)
    (r : Received) :
    (watchEventsTurn w { cfg with Callback := none } W dt r).debounceTime =
        (watchEventsTurn w { cfg with Callback := some (fun _ => EventContinue) }
          W dt r).debounceTime ∧
    (watchEventsTurn w { cfg with Callback := none } W dt r).restarts =
        (watchEventsTurn w { cfg with Callback := some (fun _ => EventContinue) }
          W dt r).restarts := by
  cases hmap : w.eventMap r.ei.Event with
  | none =>
    rw [turn_of_unmapped w _ W dt r hmap, turn_of_unmapped w _ W dt r hmap]
    exact ⟨rfl, rfl⟩
  | some info =>
    rw [turn_of_no_hook w { cfg with Callback := none } W dt r info hmap rfl,
      turn_of_fallthrough w { cfg with Callback := some (fun _ => EventContinue) } W dt r
        info (fun _ => EventContinue) hmap rfl
        (by show (EventContinue : EventHandle) ≠ EventBypass; decide)
        (by show (EventContinue : EventHandle) ≠ EventIgnore; decide)]
    have h1 := defaultRules_hook_irrelevant w cfg W dt r info none
    have h2 := defaultRules_hook_irrelevant w cfg W dt r info
      (some (fun _ => EventContinue))
    exact ⟨h1.1.trans h2.1.symm, h1.2.trans h2.2.symm⟩

/-- The loop without hook and the loop with a hook that always answers
`EventContinue` agree, turn by turn, on timestamps and restart decisions. -/
theorem loop_no_hook_vs_continue (w : World) (cfg : Config) (W : Duration)
    (e : List Received) (dt : Time) :
    (watchEventsLoop w { cfg with Callback := none } W dt e).map Outcome.debounceTime =
        (watchEventsLoop w { cfg with Callback := some (fun _ => EventContinue) }
          W dt e).map Outcome.debounceTime ∧
    (watchEventsLoop w { cfg with Callback := none } W dt e).map Outcome.restarted =
        (watchEventsLoop w { cfg with Callback := some (fun _ => EventContinue) }
          W dt e).map Outcome.restarted := by
  induction e generalizing dt with
  | nil => exact ⟨rfl, rfl⟩
  | cons r rest ih =>
    have ht := turn_no_hook_vs_continue w cfg W dt r
    simp only [watchEventsLoop, List.map_cons]
    rw [← ht.1]
    have hrest := ih (watchEventsTurn w { cfg with Callback := none } W dt r).debounceTime
    refine ⟨by rw [hrest.1], ?_⟩
    rw [hrest.2]
    simp only [Outcome.restarted, ht.2]

/-! ## The debounce check -/

/-- C1: `checkDebounce(lastAccepted, window)` is true exactly when the clock
reading is strictly after `lastAccepted + window`; at a reading equal to
`lastAccepted + window` it is false. -/
theorem checkDebounce_strictly_after (now lastAccepted : Time) (window : Duration) :
    (checkDebounce now lastAccepted window = true ↔ lastAccepted + window < now) ∧
    checkDebounce (lastAccepted + window) lastAccepted window = false := by
  refine ⟨checkDebounce_eq_true_iff now lastAccepted window, ?_⟩
  rw [checkDebounce_eq_false_iff]

/-- C2: without hook and without ignore rules, for every window `W`, every
earlier value of the debounce timestamp and every two reload-eligible events
with any clock readings, the first of which passes the debounce check: with
`t0` the instant recorded for the first event (the reading of line 63) and
`t1` the instant at which the second is checked (the reading of line 79),
the pair gives one restart when `t1 - t0 ≤ W` and two when `t1 - t0 > W`.
In the scenario (window 100 ms, fresh loop, a first write recorded at `t0`
and checked later than the window after the zero `Time`, writes checked at
`t0 + 50 ms` and `t0 + 250 ms`) the first two writes give one restart and
the three give two. -/
theorem debounce_pair_restarts :
    (∀ (w : World) (cfg : Config) (W : Duration) (dt : Time) (r0 r1 : Received)
        (i0 i1 : EventInfo),
        cfg.Callback = none → (∀ path, cfg.Ignore.checkIgnore path = false) →
        w.eventMap r0.ei.Event = some i0 → i0.Reload = true →
        w.eventMap r1.ei.Event = some i1 → i1.Reload = true →
        checkDebounce r0.now.check dt W = true →
        (r1.now.check - r0.now.set ≤ W →
          totalRestarts (watchEventsLoop w cfg W dt [r0, r1]) = 1) ∧
        (W < r1.now.check - r0.now.set →
          totalRestarts (watchEventsLoop w cfg W dt [r0, r1]) = 2)) ∧
    (∀ (w : World) (cfg : Config) (ei : NotifyEvent) (info : EventInfo) (c0 c1 c2 : Clock),
        cfg.Callback = none → (∀ path, cfg.Ignore.checkIgnore path = false) →
        cfg.Debounce = 100 → w.eventMap ei.Event = some info → info.Reload = true →
        100 * Millisecond < c0.check →
        c1.check = c0.set + 50 * Millisecond → c2.check = c0.set + 250 * Millisecond →
        totalRestarts (watchEvents w cfg [⟨ei, c0⟩, ⟨ei, c1⟩]) = 1 ∧
        totalRestarts (watchEvents w cfg [⟨ei, c0⟩, ⟨ei, c1⟩, ⟨ei, c2⟩]) = 2) := by
  constructor
  · intro w cfg W dt r0 r1 i0 i1 hcb hign h0 hr0 h1 hr1 hacc
    constructor
    · intro hle
      have hrej : checkDebounce r1.now.check r0.now.set W = false := by
        rw [checkDebounce_eq_false_iff]
        linarith
      simp [watchEventsLoop, totalRestarts, Outcome.restarts,
        turn_of_no_hook w cfg W _ r0 i0 h0 hcb,
        turn_of_no_hook w cfg W _ r1 i1 h1 hcb,
        defaultRules, hr0, hr1, hign, hacc, hrej, restartCount_append, restartCount_cons,
        restartCount_nil, getPath_no_restart, hookEffects_no_restart, Effect.isReload]
    · intro hgt
      have hacc2 : checkDebounce r1.now.check r0.now.set W = true := by
        rw [checkDebounce_eq_true_iff]
        linarith
      simp [watchEventsLoop, totalRestarts, Outcome.restarts,
        turn_of_no_hook w cfg W _ r0 i0 h0 hcb,
        turn_of_no_hook w cfg W _ r1 i1 h1 hcb,
        defaultRules, hr0, hr1, hign, hacc, hacc2, restartCount_append, restartCount_cons,
        restartCount_nil, getPath_no_restart, hookEffects_no_restart, Effect.isReload]
  · intro w cfg ei info c0 c1 c2 hcb hign hd hmap hr hbase h50 h250
    have hW : debounceThreshold cfg.Debounce = 100000000 := by
      rw [hd]; decide
    have hms : Millisecond = 1000000 := rfl
    rw [hms] at hbase h50 h250
    have k1 : checkDebounce c0.check Time.zero 100000000 = true := by
      rw [checkDebounce_eq_true_iff]
      simp only [Time.zero]; linarith
    have k2 : checkDebounce c1.check c0.set 100000000 = false := by
      rw [checkDebounce_eq_false_iff]
      linarith
    have k3 : checkDebounce c2.check c0.set 100000000 = true := by
      rw [checkDebounce_eq_true_iff]
      linarith
    have hturn : ∀ (dt : Time) (c : Clock), watchEventsTurn w cfg 100000000 dt ⟨ei, c⟩ =
        defaultRules w cfg 100000000 dt ⟨ei, c⟩ info :=
      fun dt c => turn_of_no_hook w cfg 100000000 dt ⟨ei, c⟩ info hmap hcb
    constructor
    · simp [watchEvents, hW, watchEventsLoop, totalRestarts, Outcome.restarts, hturn,
        defaultRules, hr, hign, k1, k2, restartCount_append, restartCount_cons,
        restartCount_nil, getPath_no_restart, hookEffects_no_restart, Effect.isReload]
    · simp [watchEvents, hW, watchEventsLoop, totalRestarts, Outcome.restarts, hturn,
        defaultRules, hr, hign, k1, k2, k3, restartCount_append, restartCount_cons,
        restartCount_nil, getPath_no_restart, hookEffects_no_restart, Effect.isReload]

/-- Witness of C2: a first write checked at `demoBase` and recorded one
microsecond later, window 100 ms. A second write checked exactly 100 ms after
the recorded instant gives one restart for the pair, one checked a nanosecond
later gives two; and in a fresh loop, writes checked 50 ms and 250 ms after
the recorded instant give two restarts in total. -/
theorem debounce_pair_restarts_witness :
    checkDebounce demoWriteLateSet.now.check Time.zero 100000000 = true ∧
    totalRestarts (watchEventsLoop demoWorld demoConfig 100000000 Time.zero
      [demoWriteLateSet,
       ⟨demoWrite, ⟨demoBase + 100001000, demoBase + 100001000, demoBase + 100002000⟩⟩])
      = 1 ∧
    totalRestarts (watchEventsLoop demoWorld demoConfig 100000000 Time.zero
      [demoWriteLateSet,
       ⟨demoWrite, ⟨demoBase + 100001001, demoBase + 100001001, demoBase + 100002000⟩⟩])
      = 2 ∧
    totalRestarts (watchEvents demoWorld demoConfig
      [demoWriteLateSet,
       ⟨demoWrite, ⟨demoBase + 50001000, demoBase + 50001000, demoBase + 50002000⟩⟩,
       ⟨demoWrite, ⟨demoBase + 250001000, demoBase + 250001000, demoBase + 250002000⟩⟩])
      = 2 :=
  ⟨by decide,
   (debounce_pair_restarts.1 demoWorld demoConfig 100000000 Time.zero demoWriteLateSet
      ⟨demoWrite, ⟨demoBase + 100001000, demoBase + 100001000, demoBase + 100002000⟩⟩
      ⟨"Write", true⟩ ⟨"Write", true⟩ rfl (fun _ => rfl) rfl rfl rfl rfl
      (by decide)).1 (by decide),
   (debounce_pair_restarts.1 demoWorld demoConfig 100000000 Time.zero demoWriteLateSet
      ⟨demoWrite, ⟨demoBase + 100001001, demoBase + 100001001, demoBase + 100002000⟩⟩
      ⟨"Write", true⟩ ⟨"Write", true⟩ rfl (fun _ => rfl) rfl rfl rfl rfl
      (by decide)).2 (by decide),
   (debounce_pair_restarts.2 demoWorld demoConfig demoWrite ⟨"Write", true⟩
      ⟨demoBase, demoBase, demoBase + 1000⟩
      ⟨demoBase + 50001000, demoBase + 50001000, demoBase + 50002000⟩
      ⟨demoBase + 250001000, demoBase + 250001000, demoBase + 250002000⟩
      rfl (fun _ => rfl) rfl rfl rfl (by decide) (by decide) (by decide)).2⟩

/-! ## The hook -/

/-- C3: on a classified event on which the hook answers `EventBypass` the
turn issues exactly one restart, whatever the `Reload` flag of the entry, the
ignore filter and the debounce timestamp are; the ignore filter is not
called, the debounce timestamp is left alone, and the effects are the same
under any other ignore filter, window, debounce timestamp and later clock
readings. -/
theorem bypass_always_restarts (w : World) (cfg : Config) (W : Duration) (dt : Time)
    (r : Received) (info : EventInfo) (cb : EventCallback → EventHandle)
    (hmap : w.eventMap r.ei.Event = some info) (hcb : cfg.Callback = some cb)
    (hret : cb (callbackArg w r) = EventBypass) :
    (watchEventsTurn w cfg W dt r).restarts = 1 ∧
    (watchEventsTurn w cfg W dt r).debounceTime = dt ∧
    (watchEventsTurn w cfg W dt r).effects.filter Effect.isCheckIgnore = [] ∧
    ∀ (ign : Ignore) (W2 : Duration) (dt2 : Time) (check2 set2 : Time),
      (watchEventsTurn w { cfg with Ignore := ign } W2 dt2
          ⟨r.ei, ⟨r.now.callback, check2, set2⟩⟩).effects =
        (watchEventsTurn w cfg W dt r).effects := by
  rw [turn_of_bypass w cfg W dt r info cb hmap hcb hret]
  refine ⟨?_, rfl, ?_, ?_⟩
  · simp [Outcome.restarts, restartCount_append, restartCount_cons, restartCount_nil,
      getPath_no_restart, Effect.isReload]
  · simp [List.filter_append, getPath_no_checkIgnore, Effect.isCheckIgnore]
  · intro ign W2 dt2 check2 set2
    rw [turn_of_bypass w { cfg with Ignore := ign } W2 dt2
      ⟨r.ei, ⟨r.now.callback, check2, set2⟩⟩ info cb hmap hcb hret]
    rfl

/-- Witness of C3: the hook always answers `EventBypass`; a remove (not
reloading by default) gives one restart. -/
theorem bypass_always_restarts_witness :
    demoEventMap demoRemove.Event = some ⟨"Remove", false⟩ ∧
    (watchEventsTurn demoWorld demoConfigBypass 100000000 Time.zero
      (receivedAt demoRemove demoBase)).restarts = 1 :=
  ⟨rfl, (bypass_always_restarts demoWorld demoConfigBypass 100000000 Time.zero
      (receivedAt demoRemove demoBase) ⟨"Remove", false⟩ (fun _ => EventBypass)
      rfl rfl rfl).1⟩

/-- C4: on a classified event on which the hook answers `EventIgnore` the
turn issues no restart and leaves the debounce timestamp alone, whatever the
`Reload` flag of the entry, the ignore filter and the debounce timestamp
are. -/
theorem ignore_never_restarts (w : World) (cfg : Config) (W : Duration) (dt : Time)
    (r : Received) (info : EventInfo) (cb : EventCallback → EventHandle)
    (hmap : w.eventMap r.ei.Event = some info) (hcb : cfg.Callback = some cb)
    (hret : cb (callbackArg w r) = EventIgnore) :
    (watchEventsTurn w cfg W dt r).restarts = 0 ∧
    (watchEventsTurn w cfg W dt r).restarted = false ∧
    (watchEventsTurn w cfg W dt r).debounceTime = dt := by
  rw [turn_of_ignore w cfg W dt r info cb hmap hcb hret]
  simp [Outcome.restarted, Outcome.restarts, restartCount_append, restartCount_cons,
    restartCount_nil, getPath_no_restart, Effect.isReload]

/-- Witness of C4: the hook always answers `EventIgnore`; a write (reloading
by default, no ignore rule, debounce window elapsed) gives no restart. -/
theorem ignore_never_restarts_witness :
    demoEventMap demoWrite.Event = some ⟨"Write", true⟩ ∧
    checkDebounce demoBase Time.zero 100000000 = true ∧
    (watchEventsTurn demoWorld demoConfigIgnore 100000000 Time.zero
      (receivedAt demoWrite demoBase)).restarts = 0 :=
  ⟨rfl, by decide, (ignore_never_restarts demoWorld demoConfigIgnore 100000000 Time.zero
      (receivedAt demoWrite demoBase) ⟨"Write", true⟩ (fun _ => EventIgnore)
      rfl rfl rfl).1⟩

/-! ## The default rules -/

/-- C5: with no hook, or a hook answering `EventContinue`, an event whose
path the ignore filter reports as ignored issues no restart (and leaves the
debounce timestamp alone), whatever its classification and the debounce
state are. -/
theorem ignored_path_never_restarts (w : World) (cfg : Config) (W : Duration) (dt : Time)
    (r : Received) (hc : hookContinues w cfg r)
    (hign : cfg.Ignore.checkIgnore r.ei.Path = true) :
    (watchEventsTurn w cfg W dt r).restarts = 0 ∧
    (watchEventsTurn w cfg W dt r).debounceTime = dt := by
  cases hmap : w.eventMap r.ei.Event with
  | none =>
    rw [turn_of_unmapped w cfg W dt r hmap]
    simp [Outcome.restarts, restartCount_cons, restartCount_nil, Effect.isReload]
  | some info =>
    rw [turn_of_continue w cfg W dt r info hmap hc]
    cases hr : info.Reload <;>
      simp [defaultRules, hr, hign, Outcome.restarts, restartCount_append, restartCount_cons,
        restartCount_nil, hookEffects_no_restart, Effect.isReload]

/-- Witness of C5: the filter matches `*.log`; a write of `app.log`, reload
eligible and with the debounce window elapsed, gives no restart. -/
theorem ignored_path_never_restarts_witness :
    demoEventMap demoWriteLog.Event = some ⟨"Write", true⟩ ∧
    checkDebounce demoBase Time.zero 100000000 = true ∧
    demoIgnoreLog.checkIgnore demoWriteLog.Path = true ∧
    (watchEventsTurn demoWorld demoConfigLog 100000000 Time.zero
      (receivedAt demoWriteLog demoBase)).restarts = 0 ∧
    (watchEventsTurn demoWorld demoConfigContinue 100000000 Time.zero
      (receivedAt demoWriteLog demoBase)).restarts = 0 :=
  ⟨rfl, by decide, by decide,
   (ignored_path_never_restarts demoWorld demoConfigLog 100000000 Time.zero
      (receivedAt demoWriteLog demoBase) trivial (by decide)).1,
   (ignored_path_never_restarts demoWorld demoConfigContinue 100000000 Time.zero
      (receivedAt demoWriteLog demoBase) rfl (by decide)).1⟩

/-! ## Classification -/

/-- C6: an event whose code has no entry in `eventMap` is dropped: the turn
issues no restart, does not call the hook, leaves the debounce timestamp
alone, and the loop goes on with the next event from the same state; an
event whose code has an entry is not reported as unknown and is processed
with that entry (the turn is the one of a table holding just that entry). -/
theorem unmapped_event_dropped (w : World) (cfg : Config) (W : Duration) (dt : Time)
    (r : Received) (rest : List Received) :
    (w.eventMap r.ei.Event = none →
      (watchEventsTurn w cfg W dt r).restarts = 0 ∧
      (watchEventsTurn w cfg W dt r).effects.filter Effect.isCallback = [] ∧
      (watchEventsTurn w cfg W dt r).debounceTime = dt ∧
      watchEventsLoop w cfg W dt (r :: rest) =
        ⟨dt, [unknownEventLine r.ei.Event]⟩ :: watchEventsLoop w cfg W dt rest) ∧
    (∀ info : EventInfo, w.eventMap r.ei.Event = some info →
      unknownEventLine r.ei.Event ∉ (watchEventsTurn w cfg W dt r).effects ∧
      watchEventsTurn w cfg W dt r =
        watchEventsTurn { w with eventMap := fun _ => some info } cfg W dt r) := by
  constructor
  · intro hmap
    simp [watchEventsLoop, turn_of_unmapped w cfg W dt r hmap, Outcome.restarts,
      restartCount_cons, restartCount_nil, Effect.isReload, Effect.isCallback,
      unknownEventLine]
  · intro info hmap
    exact ⟨turn_classified_no_unknownEventLine w cfg W dt r info hmap r.ei.Event,
      turn_eventMap_entry w cfg W dt r info hmap⟩

/-- Witness of C6: an unknown code followed by a write is dropped and the
write is then processed (one restart overall); a write is classified. -/
theorem unmapped_event_dropped_witness :
    demoEventMap demoUnknown.Event = none ∧
    watchEventsLoop demoWorld demoConfigContinue 100000000 Time.zero
        [receivedAt demoUnknown demoBase, receivedAt demoWrite demoBase] =
      ⟨Time.zero, [unknownEventLine 77]⟩ ::
        watchEventsLoop demoWorld demoConfigContinue 100000000 Time.zero
          [receivedAt demoWrite demoBase] ∧
    unknownEventLine 1 ∉ (watchEventsTurn demoWorld demoConfigContinue 100000000 Time.zero
      (receivedAt demoWrite demoBase)).effects :=
  ⟨rfl,
   ((unmapped_event_dropped demoWorld demoConfigContinue 100000000 Time.zero
      (receivedAt demoUnknown demoBase) [receivedAt demoWrite demoBase]).1 rfl).2.2.2,
   ((unmapped_event_dropped demoWorld demoConfigContinue 100000000 Time.zero
      (receivedAt demoWrite demoBase) []).2 ⟨"Write", true⟩ rfl).1⟩

/-- C7: with no hook, or a hook answering `EventContinue`, an event whose
classification has `Reload = false` issues no restart (and leaves the
debounce timestamp alone), for every path, ignore filter and debounce
state. -/
theorem non_reload_never_restarts (w : World) (cfg : Config) (W : Duration) (dt : Time)
    (r : Received) (info : EventInfo) (hc : hookContinues w cfg r)
    (hmap : w.eventMap r.ei.Event = some info) (hr : info.Reload = false) :
    (watchEventsTurn w cfg W dt r).restarts = 0 ∧
    (watchEventsTurn w cfg W dt r).restarted = false ∧
    (watchEventsTurn w cfg W dt r).debounceTime = dt := by
  rw [turn_of_continue w cfg W dt r info hmap hc]
  simp [defaultRules, hr, Outcome.restarted, Outcome.restarts, hookEffects_no_restart]

/-- Witness of C7: a remove, with no hook and with a continuing hook, no
ignore rule matching and the debounce window elapsed, gives no restart. -/
theorem non_reload_never_restarts_witness :
    checkDebounce demoBase Time.zero 100000000 = true ∧
    (watchEventsTurn demoWorld demoConfig 100000000 Time.zero
      (receivedAt demoRemove demoBase)).restarts = 0 ∧
    (watchEventsTurn demoWorld demoConfigContinue 100000000 Time.zero
      (receivedAt demoRemove demoBase)).restarts = 0 :=
  ⟨by decide,
   (non_reload_never_restarts demoWorld demoConfig 100000000 Time.zero
      (receivedAt demoRemove demoBase) ⟨"Remove", false⟩ trivial rfl rfl).1,
   (non_reload_never_restarts demoWorld demoConfigContinue 100000000 Time.zero
      (receivedAt demoRemove demoBase) ⟨"Remove", false⟩ rfl rfl rfl).1⟩

/-! ## Other answers of the hook -/

/-- C8: when the hook answers a value that is none of `EventContinue`,
`EventBypass`, `EventIgnore`, the turn is the same as with a hook that answers
`EventContinue` on that event: same restart decision, same resulting
debounce timestamp, same effects. -/
theorem other_handle_is_continue (w : World) (cfg : Config) (W : Duration) (dt : Time)
    (r : Received) (cb cb2 : EventCallback → EventHandle)
    (_h0 : cb (callbackArg w r) ≠ EventContinue) (h1 : cb (callbackArg w r) ≠ EventBypass)
    (h2 : cb (callbackArg w r) ≠ EventIgnore)
    (hc : cb2 (callbackArg w r) = EventContinue) :
    (watchEventsTurn w { cfg with Callback := some cb } W dt r).restarted =
        (watchEventsTurn w { cfg with Callback := some cb2 } W dt r).restarted ∧
    (watchEventsTurn w { cfg with Callback := some cb } W dt r).debounceTime =
        (watchEventsTurn w { cfg with Callback := some cb2 } W dt r).debounceTime ∧
    (watchEventsTurn w { cfg with Callback := some cb } W dt r).effects =
        (watchEventsTurn w { cfg with Callback := some cb2 } W dt r).effects := by
  have key : watchEventsTurn w { cfg with Callback := some cb } W dt r =
      watchEventsTurn w { cfg with Callback := some cb2 } W dt r := by
    cases hmap : w.eventMap r.ei.Event with
    | none => rw [turn_of_unmapped w _ W dt r hmap, turn_of_unmapped w _ W dt r hmap]
    | some info =>
      rw [turn_of_fallthrough w { cfg with Callback := some cb } W dt r info cb hmap rfl
          h1 h2,
        turn_of_fallthrough w { cfg with Callback := some cb2 } W dt r info cb2 hmap rfl
          (by rw [hc]; decide) (by rw [hc]; decide)]
      rfl
  rw [key]
  exact ⟨rfl, rfl, rfl⟩

/-- Witness of C8: a hook answering 7 and a hook answering `EventContinue`
on a write after the debounce window: both turns restart. -/
theorem other_handle_is_continue_witness :
    (watchEventsTurn demoWorld { demoConfig with Callback := some (fun _ => 7) }
        100000000 Time.zero (receivedAt demoWrite demoBase)).restarted = true ∧
    (watchEventsTurn demoWorld { demoConfig with Callback := some (fun _ => 7) }
        100000000 Time.zero (receivedAt demoWrite demoBase)).restarted =
      (watchEventsTurn demoWorld { demoConfig with Callback := some (fun _ => EventContinue) }
        100000000 Time.zero (receivedAt demoWrite demoBase)).restarted :=
  ⟨by decide,
   (other_handle_is_continue demoWorld demoConfig 100000000 Time.zero
      (receivedAt demoWrite demoBase) (fun _ => 7) (fun _ => EventContinue)
      (by decide) (by decide) (by decide) rfl).1⟩

/-- C9: for every list of received events and every clock, `watchEvents`
without hook and `watchEvents` with a hook that always answers
`EventContinue` give the same sequence of restart decisions and the same
sequence of debounce timestamps. -/
theorem no_hook_same_as_continue (w : World) (cfg : Config) (e : List Received) :
    (watchEvents w { cfg with Callback := none } e).map Outcome.restarted =
        (watchEvents w { cfg with Callback := some (fun _ => EventContinue) } e).map
          Outcome.restarted ∧
    (watchEvents w { cfg with Callback := none } e).map Outcome.debounceTime =
        (watchEvents w { cfg with Callback := some (fun _ => EventContinue) } e).map
          Outcome.debounceTime := by
  have h := loop_no_hook_vs_continue w cfg (debounceThreshold cfg.Debounce) e Time.zero
  exact ⟨h.2, h.1⟩

/-! ## Mounting the watcher -/

/-- C10 (the code at a failing mount): `notify.Watch` fails, the error is
logged, and `watch` still announces the watch and runs the loop: the write
on the channel is consumed and restarts the process a second time. -/
theorem watch_runs_loop_after_failed_mount :
    demoWorldNoMount.Watch (demoConfig.RootPath ++ "/...") = some "no such file or directory" ∧
    watch demoWorldNoMount demoConfig [receivedAt demoWrite demoBase] =
      [Effect.reloadProcess,
       Effect.slog Level.Error "Error creating watcher: %s"
         [Arg.str "no such file or directory"],
       Effect.slog Level.Warn "Watching for file changes..." [],
       Effect.checkIgnore "/proj/main.go",
       Effect.slog Level.Debug "Debounce Timer Start: %v" [Arg.time demoBase],
       Effect.slog Level.Info "File Modified: %s" [Arg.str "main.go"],
       Effect.slog Level.Info "Reloading process..." [],
       Effect.reloadProcess] := by
  constructor
  · rfl
  · decide

/-! ## The decision of a turn -/

theorem defaultRules_debounceTime (w : World) (cfg : Config) (W : Duration) (dt : Time)
    (r : Received) (info : EventInfo) :
    (defaultRules w cfg W dt r info).debounceTime =
      if (info.Reload && !(cfg.Ignore.checkIgnore r.ei.Path)
          && checkDebounce r.now.check dt W) = true then r.now.set else dt := by
  unfold defaultRules
  cases info.Reload <;> cases cfg.Ignore.checkIgnore r.ei.Path <;>
    cases checkDebounce r.now.check dt W <;> simp

theorem defaultRules_restarts (w : World) (cfg : Config) (W : Duration) (dt : Time)
    (r : Received) (info : EventInfo) :
    (defaultRules w cfg W dt r info).restarts =
      if (info.Reload && !(cfg.Ignore.checkIgnore r.ei.Path)
          && checkDebounce r.now.check dt W) = true then 1 else 0 := by
  unfold defaultRules
  cases info.Reload <;> cases cfg.Ignore.checkIgnore r.ei.Path <;>
    cases checkDebounce r.now.check dt W <;>
    simp [Outcome.restarts, restartCount_append, restartCount_cons, restartCount_nil,
      hookEffects_no_restart, getPath_no_restart, Effect.isReload]

/-- The debounce timestamp after a turn: the reading of line 63 when the turn
accepts, the old value otherwise. -/
theorem turn_debounceTime (w : World) (cfg : Config) (W : Duration) (dt : Time)
    (r : Received) :
    (watchEventsTurn w cfg W dt r).debounceTime =
      if accepts w cfg W dt r = true then r.now.set else dt := by
  cases hmap : w.eventMap r.ei.Event with
  | none => simp [turn_of_unmapped w cfg W dt r hmap, accepts, hmap]
  | some info =>
    cases hcb : cfg.Callback with
    | none =>
      rw [turn_of_no_hook w cfg W dt r info hmap hcb, defaultRules_debounceTime]
      simp [accepts, hmap, hookAnswer, hcb]
    | some cb =>
      by_cases h1 : cb (callbackArg w r) = EventBypass
      · simp [turn_of_bypass w cfg W dt r info cb hmap hcb h1, accepts, hmap, hookAnswer,
          hcb, h1]
      · by_cases h2 : cb (callbackArg w r) = EventIgnore
        · simp [turn_of_ignore w cfg W dt r info cb hmap hcb h2, accepts, hmap, hookAnswer,
            hcb, h2]
        · rw [turn_of_fallthrough w cfg W dt r info cb hmap hcb h1 h2,
            defaultRules_debounceTime]
          simp [accepts, hmap, hookAnswer, hcb, h1, h2]

/-- The restarts of a turn: one when the hook bypasses or the turn accepts,
none otherwise. -/
theorem turn_restarts (w : World) (cfg : Config) (W : Duration) (dt : Time)
    (r : Received) :
    (watchEventsTurn w cfg W dt r).restarts =
      if (bypasses w cfg r || accepts w cfg W dt r) = true then 1 else 0 := by
  cases hmap : w.eventMap r.ei.Event with
  | none =>
    simp [turn_of_unmapped w cfg W dt r hmap, accepts, bypasses, hmap, Outcome.restarts,
      restartCount_cons, restartCount_nil, Effect.isReload]
  | some info =>
    cases hcb : cfg.Callback with
    | none =>
      rw [turn_of_no_hook w cfg W dt r info hmap hcb, defaultRules_restarts]
      simp [accepts, bypasses, hmap, hookAnswer, hcb]
    | some cb =>
      by_cases h1 : cb (callbackArg w r) = EventBypass
      · simp [turn_of_bypass w cfg W dt r info cb hmap hcb h1, accepts, bypasses, hmap,
          hookAnswer, hcb, h1, Outcome.restarts, restartCount_append, restartCount_cons,
          restartCount_nil, getPath_no_restart, Effect.isReload]
      · by_cases h2 : cb (callbackArg w r) = EventIgnore
        · simp [turn_of_ignore w cfg W dt r info cb hmap hcb h2, accepts, bypasses, hmap,
            hookAnswer, hcb, h1, h2, Outcome.restarts, restartCount_append,
            restartCount_cons, restartCount_nil, getPath_no_restart, Effect.isReload,
            EventIgnore, EventBypass]
        · rw [turn_of_fallthrough w cfg W dt r info cb hmap hcb h1 h2,
            defaultRules_restarts]
          simp [accepts, bypasses, hmap, hookAnswer, hcb, h1, h2]

/-- With no hook or a continuing hook the answer is not a short circuit. -/
theorem hookAnswer_of_continues (w : World) (cfg : Config) (r : Received)
    (hc : hookContinues w cfg r) :
    hookAnswer w cfg r ≠ some EventBypass ∧ hookAnswer w cfg r ≠ some EventIgnore := by
  unfold hookContinues at hc
  cases hcb : cfg.Callback with
  | none => simp [hookAnswer, hcb]
  | some cb =>
    rw [hcb] at hc
    simp only at hc
    simp [hookAnswer, hcb, hc, EventContinue, EventBypass, EventIgnore]

/-- The threshold of line 29 is an `int64`. -/
theorem debounceThreshold_lt (Debounce : Int) : debounceThreshold Debounce < 2 ^ 63 := by
  unfold debounceThreshold
  generalize wrapInt64 Debounce * Millisecond = x
  unfold wrapInt64
  have h := Int.emod_lt_of_pos (x + 2 ^ 63) (show (0 : Int) < 2 ^ 64 by norm_num)
  have e : (2 : Int) ^ 64 = 2 ^ 63 + 2 ^ 63 := by norm_num
  linarith

theorem accepts_false_of_not_eligible (w : World) (cfg : Config) (W : Duration) (dt : Time)
    (r : Received) (h : eligible w cfg r = false) : accepts w cfg W dt r = false := by
  unfold eligible at h
  unfold accepts
  cases hmap : w.eventMap r.ei.Event with
  | none => rfl
  | some info =>
    rw [hmap] at h
    simp only at h
    cases hr : info.Reload <;> cases hi : cfg.Ignore.checkIgnore r.ei.Path <;>
      simp_all

/-- The loop over a list that starts with events that are not eligible: they
leave the debounce timestamp alone, and the rest is processed from it. -/
theorem loop_after_not_eligible (w : World) (cfg : Config) (W : Duration) (dt : Time)
    (pre l : List Received) (h : ∀ p ∈ pre, eligible w cfg p = false) :
    watchEventsLoop w cfg W dt (pre ++ l) =
      watchEventsLoop w cfg W dt pre ++ watchEventsLoop w cfg W dt l := by
  induction pre with
  | nil => rfl
  | cons p pre ih =>
    have hp : (watchEventsTurn w cfg W dt p).debounceTime = dt := by
      rw [turn_debounceTime,
        accepts_false_of_not_eligible w cfg W dt p (h p (List.mem_cons_self p pre))]
      simp
    have ih2 := ih (fun q hq => h q (List.mem_cons_of_mem p hq))
    show watchEventsLoop w cfg W dt (p :: (pre ++ l)) = _
    simp only [List.cons_append, watchEventsLoop, hp, ih2]

theorem watchEventsLoop_length (w : World) (cfg : Config) (W : Duration) (dt : Time)
    (l : List Received) : (watchEventsLoop w cfg W dt l).length = l.length := by
  induction l generalizing dt with
  | nil => rfl
  | cons r rest ih => simp [watchEventsLoop, ih]

/-! ## The first event -/

/-- C11: in a fresh `watchEvents` (debounce timestamp at the zero `Time`), the
first reload-eligible, non-ignored event, with no hook or a hook answering
`EventContinue`, passes the debounce check and issues a restart, for every
configured `Debounce` and every reading of the system clock (a reading at or
after the Unix epoch): the events before it leave the timestamp at zero, the
check is true, one restart is issued and the timestamp becomes the reading
of line 63. -/
theorem first_event_never_debounced (w : World) (cfg : Config) (pre rest : List Received)
    (r : Received) (hpre : ∀ p ∈ pre, eligible w cfg p = false)
    (hel : eligible w cfg r = true) (hc : hookContinues w cfg r)
    (hclock : unixEpoch ≤ r.now.check) :
    checkDebounce r.now.check Time.zero (debounceThreshold cfg.Debounce) = true ∧
    (watchEvents w cfg (pre ++ r :: rest))[pre.length]? =
      some (watchEventsTurn w cfg (debounceThreshold cfg.Debounce) Time.zero r) ∧
    (watchEventsTurn w cfg (debounceThreshold cfg.Debounce) Time.zero r).restarts = 1 ∧
    (watchEventsTurn w cfg (debounceThreshold cfg.Debounce) Time.zero r).debounceTime =
      r.now.set := by
  have hW := debounceThreshold_lt cfg.Debounce
  have hchk : checkDebounce r.now.check Time.zero (debounceThreshold cfg.Debounce) = true := by
    rw [checkDebounce_eq_true_iff]
    have h1 : (2 : Int) ^ 63 < unixEpoch := by unfold unixEpoch; norm_num
    simp only [Time.zero]
    linarith
  have hacc : accepts w cfg (debounceThreshold cfg.Debounce) Time.zero r = true := by
    have ha := hookAnswer_of_continues w cfg r hc
    unfold eligible at hel
    unfold accepts
    cases hmap : w.eventMap r.ei.Event with
    | none => rw [hmap] at hel; simp at hel
    | some info =>
      rw [hmap] at hel
      simp only [Bool.and_eq_true, Bool.not_eq_true'] at hel
      simp [ha.1, ha.2, hel.1, hel.2, hchk]
  refine ⟨hchk, ?_, ?_, ?_⟩
  · unfold watchEvents
    rw [loop_after_not_eligible w cfg _ Time.zero pre (r :: rest) hpre,
      List.getElem?_append_right (by rw [watchEventsLoop_length])]
    simp [watchEventsLoop_length, watchEventsLoop]
  · rw [turn_restarts]; simp [hacc]
  · rw [turn_debounceTime]; simp [hacc]

/-- Witness of C11: a remove and then a write at the Unix epoch, with the
largest window an `int64` of milliseconds can hold: the write restarts. -/
theorem first_event_never_debounced_witness :
    debounceThreshold 9223372036854 = 9223372036854000000 ∧
    (watchEvents demoWorld { demoConfig with Debounce := 9223372036854 }
      [receivedAt demoRemove unixEpoch, receivedAt demoWrite unixEpoch])[1]? =
      some (watchEventsTurn demoWorld { demoConfig with Debounce := 9223372036854 }
        (debounceThreshold 9223372036854) Time.zero (receivedAt demoWrite unixEpoch)) ∧
    (watchEventsTurn demoWorld { demoConfig with Debounce := 9223372036854 }
        (debounceThreshold 9223372036854) Time.zero
        (receivedAt demoWrite unixEpoch)).restarts = 1 :=
  ⟨by decide,
   (first_event_never_debounced demoWorld { demoConfig with Debounce := 9223372036854 }
      [receivedAt demoRemove unixEpoch] [] (receivedAt demoWrite unixEpoch)
      (by decide) (by decide) trivial (by decide)).2.1,
   (first_event_never_debounced demoWorld { demoConfig with Debounce := 9223372036854 }
      [receivedAt demoRemove unixEpoch] [] (receivedAt demoWrite unixEpoch)
      (by decide) (by decide) trivial (by decide)).2.2.1⟩

/-! ## Paths given out -/

theorem getPath_pathsAsInCode (w : World) (r : Received) (path : String) :
    ∀ fx ∈ (getPath w path).2, pathsAsInCode w r fx := by
  unfold getPath
  split
  · simp [pathsAsInCode, Effect.pathUse]
  · split <;> simp [pathsAsInCode, Effect.pathUse]

theorem hookEffects_pathsAsInCode (w : World) (cfg : Config) (r : Received) :
    ∀ fx ∈ hookEffects w cfg r, pathsAsInCode w r fx := by
  unfold hookEffects
  split
  · simp
  · rw [List.forall_mem_append]
    refine ⟨getPath_pathsAsInCode w r r.ei.Path, ?_⟩
    simp [pathsAsInCode, Effect.pathUse, callbackArg]

theorem defaultRules_pathsAsInCode (w : World) (cfg : Config) (W : Duration) (dt : Time)
    (r : Received) (info : EventInfo) :
    ∀ fx ∈ (defaultRules w cfg W dt r info).effects, pathsAsInCode w r fx := by
  have hh := hookEffects_pathsAsInCode w cfg r
  have hg := getPath_pathsAsInCode w r r.ei.Path
  unfold defaultRules
  split_ifs
  · rw [List.forall_mem_append]
    refine ⟨hh, ?_⟩
    simp [pathsAsInCode, Effect.pathUse]
  · simp only [List.forall_mem_append]
    refine ⟨⟨⟨hh, ?_⟩, hg⟩, ?_⟩
    · simp [pathsAsInCode, Effect.pathUse]
    · simp [pathsAsInCode, Effect.pathUse]
  · rw [List.forall_mem_append]
    refine ⟨hh, ?_⟩
    simp [pathsAsInCode, Effect.pathUse]
  · exact hh

/-- Every path the turn gives out is the one the code writes at that place. -/
theorem turn_pathsAsInCode (w : World) (cfg : Config) (W : Duration) (dt : Time)
    (r : Received) : ∀ fx ∈ (watchEventsTurn w cfg W dt r).effects, pathsAsInCode w r fx := by
  cases hmap : w.eventMap r.ei.Event with
  | none =>
    rw [turn_of_unmapped w cfg W dt r hmap]
    simp [pathsAsInCode, Effect.pathUse]
  | some info =>
    cases hcb : cfg.Callback with
    | none =>
      rw [turn_of_no_hook w cfg W dt r info hmap hcb]
      exact defaultRules_pathsAsInCode w cfg W dt r info
    | some cb =>
      by_cases h1 : cb (callbackArg w r) = EventBypass
      · rw [turn_of_bypass w cfg W dt r info cb hmap hcb h1]
        simp only [List.forall_mem_append]
        refine ⟨getPath_pathsAsInCode w r r.ei.Path, ?_⟩
        simp [pathsAsInCode, Effect.pathUse, callbackArg]
      · by_cases h2 : cb (callbackArg w r) = EventIgnore
        · rw [turn_of_ignore w cfg W dt r info cb hmap hcb h2]
          simp only [List.forall_mem_append]
          refine ⟨getPath_pathsAsInCode w r r.ei.Path, ?_⟩
          simp [pathsAsInCode, Effect.pathUse, callbackArg]
        · rw [turn_of_fallthrough w cfg W dt r info cb hmap hcb h1 h2]
          exact defaultRules_pathsAsInCode w cfg W dt r info

/-- C12 does not hold as stated: with the filter `*.log`, the write of
`/proj/app.log` is logged as ignored with the raw path `/proj/app.log`, not
with `getPath` of it (`app.log`); and a write inside the debounce window is
logged as debounced with the raw path `/proj/main.go`, not `main.go`. -/
theorem raw_path_in_debug_lines :
    (∃ fx ∈ (watchEventsTurn demoWorld demoConfigLog 100000000 Time.zero
          (receivedAt demoWriteLog demoBase)).effects,
        fx.pathUse = some (PathUse.ignoredLine, "/proj/app.log") ∧
        "/proj/app.log" ≠ (getPath demoWorld demoWriteLog.Path).1) ∧
    (∃ fx ∈ (watchEventsTurn demoWorld demoConfig 100000000 demoBase
          (receivedAt demoWrite (demoBase + 50 * Millisecond))).effects,
        fx.pathUse = some (PathUse.debouncedLine, "/proj/main.go") ∧
        "/proj/main.go" ≠ (getPath demoWorld demoWrite.Path).1) := by
  constructor
  · exact ⟨Effect.slog Level.Debug "Ignoring %s change: %s"
      [Arg.event 1, Arg.str "/proj/app.log"], by decide, by decide, by decide⟩
  · exact ⟨Effect.slog Level.Debug "Debouncing file change: %s" [Arg.str "/proj/main.go"],
      by decide, by decide, by decide⟩

/-- C12 (amended): every path value that a turn of `watchEvents` hands to the
hook or writes into the file-modified log line is `getPath` of the raw path
of the event. -/
theorem hook_and_modified_paths_relative (w : World) (cfg : Config) (W : Duration)
    (dt : Time) (r : Received) (fx : Effect) (u : PathUse) (p : String)
    (hfx : fx ∈ (watchEventsTurn w cfg W dt r).effects)
    (hp : fx.pathUse = some (u, p))
    (hu : u = PathUse.hook ∨ u = PathUse.fileModifiedLine) :
    p = (getPath w r.ei.Path).1 := by
  rcases turn_pathsAsInCode w cfg W dt r fx hfx u p hp with h | h
  · exact h.2
  · rcases hu with hu | hu <;> rcases h.1 with h1 | h1 <;> rw [hu] at h1 <;> cases h1

/-- Witness of C12 (amended): with a continuing hook, a write of
`/proj/main.go` hands `main.go` to the hook and logs `main.go` as modified. -/
theorem hook_and_modified_paths_relative_witness :
    (getPath demoWorld demoWrite.Path).1 = "main.go" ∧
    Effect.Callback ⟨Write, demoBase, "main.go"⟩ ∈
      (watchEventsTurn demoWorld demoConfigContinue 100000000 Time.zero
        (receivedAt demoWrite demoBase)).effects ∧
    Effect.slog Level.Info "File Modified: %s" [Arg.str "main.go"] ∈
      (watchEventsTurn demoWorld demoConfigContinue 100000000 Time.zero
        (receivedAt demoWrite demoBase)).effects ∧
    "main.go" = (getPath demoWorld (receivedAt demoWrite demoBase).ei.Path).1 ∧
    "main.go" = (getPath demoWorld (receivedAt demoWrite demoBase).ei.Path).1 :=
  ⟨by decide, by decide, by decide,
   hook_and_modified_paths_relative demoWorld demoConfigContinue 100000000 Time.zero
     (receivedAt demoWrite demoBase) (Effect.Callback ⟨Write, demoBase, "main.go"⟩)
     PathUse.hook "main.go" (by decide) rfl (Or.inl rfl),
   hook_and_modified_paths_relative demoWorld demoConfigContinue 100000000 Time.zero
     (receivedAt demoWrite demoBase)
     (Effect.slog Level.Info "File Modified: %s" [Arg.str "main.go"])
     PathUse.fileModifiedLine "main.go" (by decide) (by decide) (Or.inr rfl)⟩

/-! ## What the decision of a turn depends on -/

theorem accepts_congr (w1 w2 : World) (cfg1 cfg2 : Config) (W : Duration) (dt : Time)
    (r : Received) (hmap : w1.eventMap r.ei.Event = w2.eventMap r.ei.Event)
    (hhook : hookAnswer w1 cfg1 r = hookAnswer w2 cfg2 r)
    (hign : cfg1.Ignore.checkIgnore r.ei.Path = cfg2.Ignore.checkIgnore r.ei.Path) :
    accepts w1 cfg1 W dt r = accepts w2 cfg2 W dt r := by
  simp only [accepts, hmap, hhook, hign]

theorem bypasses_congr (w1 w2 : World) (cfg1 cfg2 : Config) (r : Received)
    (hmap : w1.eventMap r.ei.Event = w2.eventMap r.ei.Event)
    (hhook : hookAnswer w1 cfg1 r = hookAnswer w2 cfg2 r) :
    bypasses w1 cfg1 r = bypasses w2 cfg2 r := by
  simp only [bypasses, hmap, hhook]

/-- The timestamp and the restarts of a turn depend on the world and the
configuration only through the table entry of the code, the answer of the
hook and the answer of the ignore filter. -/
theorem turn_decision_congr (w1 w2 : World) (cfg1 cfg2 : Config) (W : Duration) (dt : Time)
    (r : Received) (hmap : w1.eventMap r.ei.Event = w2.eventMap r.ei.Event)
    (hhook : hookAnswer w1 cfg1 r = hookAnswer w2 cfg2 r)
    (hign : cfg1.Ignore.checkIgnore r.ei.Path = cfg2.Ignore.checkIgnore r.ei.Path) :
    (watchEventsTurn w1 cfg1 W dt r).debounceTime =
        (watchEventsTurn w2 cfg2 W dt r).debounceTime ∧
    (watchEventsTurn w1 cfg1 W dt r).restarts = (watchEventsTurn w2 cfg2 W dt r).restarts := by
  rw [turn_debounceTime, turn_debounceTime, turn_restarts, turn_restarts,
    accepts_congr w1 w2 cfg1 cfg2 W dt r hmap hhook hign,
    bypasses_congr w1 w2 cfg1 cfg2 r hmap hhook]
  exact ⟨rfl, rfl⟩

/-- Two loops that agree, on every event, on the table entry, the answer of
the hook and the answer of the ignore filter agree on every timestamp and
every restart decision. -/
theorem loop_decision_congr (w1 w2 : World) (cfg1 cfg2 : Config) (W : Duration)
    (e : List Received) (dt : Time)
    (hmap : ∀ r ∈ e, w1.eventMap r.ei.Event = w2.eventMap r.ei.Event)
    (hhook : ∀ r ∈ e, hookAnswer w1 cfg1 r = hookAnswer w2 cfg2 r)
    (hign : ∀ r ∈ e, cfg1.Ignore.checkIgnore r.ei.Path = cfg2.Ignore.checkIgnore r.ei.Path) :
    (watchEventsLoop w1 cfg1 W dt e).map Outcome.restarted =
        (watchEventsLoop w2 cfg2 W dt e).map Outcome.restarted ∧
    (watchEventsLoop w1 cfg1 W dt e).map Outcome.debounceTime =
        (watchEventsLoop w2 cfg2 W dt e).map Outcome.debounceTime := by
  induction e generalizing dt with
  | nil => exact ⟨rfl, rfl⟩
  | cons r rest ih =>
    have hr := List.mem_cons_self r rest
    have ht := turn_decision_congr w1 w2 cfg1 cfg2 W dt r (hmap r hr) (hhook r hr) (hign r hr)
    have hrest := ih (watchEventsTurn w1 cfg1 W dt r).debounceTime
      (fun q hq => hmap q (List.mem_cons_of_mem r hq))
      (fun q hq => hhook q (List.mem_cons_of_mem r hq))
      (fun q hq => hign q (List.mem_cons_of_mem r hq))
    simp only [watchEventsLoop, List.map_cons]
    rw [← ht.1, hrest.1, hrest.2]
    exact ⟨by simp only [Outcome.restarted, ht.2], rfl⟩

theorem getPath_no_callback (w : World) (path : String) :
    (getPath w path).2.filter Effect.isCallback = [] := by
  unfold getPath
  split
  · rfl
  · split <;> rfl

theorem hookEffects_callbacks (w : World) (cfg : Config) (r : Received)
    (cb : EventCallback → EventHandle) (hcb : cfg.Callback = some cb) :
    (hookEffects w cfg r).filter Effect.isCallback = [Effect.Callback (callbackArg w r)] := by
  simp [hookEffects, hcb, List.filter_append, getPath_no_callback, Effect.isCallback]

/-- On a classified event with a hook configured, the hook is called exactly
once, with the value built at lines 39 to 43. -/
theorem turn_callbacks (w : World) (cfg : Config) (W : Duration) (dt : Time) (r : Received)
    (info : EventInfo) (cb : EventCallback → EventHandle)
    (hmap : w.eventMap r.ei.Event = some info) (hcb : cfg.Callback = some cb) :
    (watchEventsTurn w cfg W dt r).effects.filter Effect.isCallback =
      [Effect.Callback (callbackArg w r)] := by
  have hh := hookEffects_callbacks w cfg r cb hcb
  by_cases h1 : cb (callbackArg w r) = EventBypass
  · rw [turn_of_bypass w cfg W dt r info cb hmap hcb h1]
    simp [List.filter_append, getPath_no_callback, Effect.isCallback]
  · by_cases h2 : cb (callbackArg w r) = EventIgnore
    · rw [turn_of_ignore w cfg W dt r info cb hmap hcb h2]
      simp [List.filter_append, getPath_no_callback, Effect.isCallback]
    · rw [turn_of_fallthrough w cfg W dt r info cb hmap hcb h1 h2]
      unfold defaultRules
      split_ifs <;>
        simp [List.filter_append, getPath_no_callback, Effect.isCallback, hh]

theorem getPath_of_fails (w : World) (path : String) (h : normalizationFails w path = true) :
    (getPath w path).1 = "" := by
  unfold normalizationFails at h
  unfold getPath
  split
  · rfl
  · rename_i wd hwd
    rw [hwd] at h
    simp only at h
    split
    · rfl
    · rename_i rel hrel
      rw [hrel] at h
      simp at h

/-! ## Path normalization failures -/

/-- C13: `getPath` returns the empty string when `os.Getwd` fails and when
`stripCurrentDirectory` fails, and the computed relative path otherwise; and
when normalization fails on a classified event with a hook, the hook is still
called, once, with `Path = ""`, and the turn decides (debounce timestamp,
restart) exactly as a turn in any other world, for instance one where
normalization succeeds, with the same table entry, the same answer of the
hook and the same answer of the ignore filter. -/
theorem normalization_failure_harmless :
    (∀ (w : World) (path : String),
      (∀ err, w.Getwd = .error err → (getPath w path).1 = "") ∧
      (∀ wd err, w.Getwd = .ok wd → stripCurrentDirectory w path wd = .error err →
        (getPath w path).1 = "") ∧
      (∀ wd rel, w.Getwd = .ok wd → stripCurrentDirectory w path wd = .ok rel →
        (getPath w path).1 = rel)) ∧
    (∀ (w : World) (cfg : Config) (W : Duration) (dt : Time) (r : Received)
        (info : EventInfo) (cb : EventCallback → EventHandle),
      w.eventMap r.ei.Event = some info → cfg.Callback = some cb →
      normalizationFails w r.ei.Path = true →
      (watchEventsTurn w cfg W dt r).effects.filter Effect.isCallback =
        [Effect.Callback ⟨(w.CallbackMap r.ei.Event).getD Create, r.now.callback, ""⟩] ∧
      ∀ (w2 : World) (cfg2 : Config),
        w2.eventMap r.ei.Event = w.eventMap r.ei.Event →
        hookAnswer w2 cfg2 r = hookAnswer w cfg r →
        cfg2.Ignore.checkIgnore r.ei.Path = cfg.Ignore.checkIgnore r.ei.Path →
        (watchEventsTurn w cfg W dt r).debounceTime =
            (watchEventsTurn w2 cfg2 W dt r).debounceTime ∧
        (watchEventsTurn w cfg W dt r).restarts =
            (watchEventsTurn w2 cfg2 W dt r).restarts) := by
  constructor
  · intro w path
    refine ⟨?_, ?_, ?_⟩
    · intro err h
      simp [getPath, h]
    · intro wd err h1 h2
      simp [getPath, h1, h2]
    · intro wd rel h1 h2
      simp [getPath, h1, h2]
  · intro w cfg W dt r info cb hmap hcb hfail
    constructor
    · rw [turn_callbacks w cfg W dt r info cb hmap hcb]
      simp [callbackArg, getPath_of_fails w r.ei.Path hfail, Create]
    · intro w2 cfg2 h1 h2 h3
      exact turn_decision_congr w w2 cfg cfg2 W dt r h1.symm h2.symm h3.symm

/-- Witness of C13: where the working directory cannot be read, a write with
a continuing hook calls the hook with an empty path and restarts, as it does
where the directory can be read. -/
theorem normalization_failure_harmless_witness :
    (getPath demoWorldNoWd "/proj/main.go").1 = "" ∧
    (getPath demoWorld "/proj/main.go").1 = "main.go" ∧
    (watchEventsTurn demoWorldNoWd demoConfigContinue 100000000 Time.zero
        (receivedAt demoWrite demoBase)).effects.filter Effect.isCallback =
      [Effect.Callback ⟨Write, demoBase, ""⟩] ∧
    (watchEventsTurn demoWorld demoConfigContinue 100000000 Time.zero
        (receivedAt demoWrite demoBase)).restarts = 1 ∧
    (watchEventsTurn demoWorldNoWd demoConfigContinue 100000000 Time.zero
        (receivedAt demoWrite demoBase)).restarts =
      (watchEventsTurn demoWorld demoConfigContinue 100000000 Time.zero
        (receivedAt demoWrite demoBase)).restarts :=
  ⟨(normalization_failure_harmless.1 demoWorldNoWd "/proj/main.go").1
      "getwd: no such file or directory" rfl,
   (normalization_failure_harmless.1 demoWorld "/proj/main.go").2.2 "/proj" "main.go" rfl
      (by simp [stripCurrentDirectory, demoWorld, demoRel]),
   (normalization_failure_harmless.2 demoWorldNoWd demoConfigContinue 100000000 Time.zero
      (receivedAt demoWrite demoBase) ⟨"Write", true⟩ (fun _ => EventContinue) rfl rfl
      (by decide)).1,
   by decide,
   ((normalization_failure_harmless.2 demoWorldNoWd demoConfigContinue 100000000 Time.zero
      (receivedAt demoWrite demoBase) ⟨"Write", true⟩ (fun _ => EventContinue) rfl rfl
      (by decide)).2 demoWorld demoConfigContinue rfl rfl rfl).2⟩

/-! ## Replay -/

/-- C14: two runs of `watchEvents`, each from a fresh (zero) debounce
timestamp, on the same list of received events with the same clock readings,
the same debounce setting, the same table entries, the same answers of the
hook and the same answers of the ignore filter, give the same sequence of
restart decisions (and of debounce timestamps), whatever else differs between
the two runs. -/
theorem replay_same_decisions (w1 w2 : World) (cfg1 cfg2 : Config) (e : List Received)
    (hD : cfg1.Debounce = cfg2.Debounce)
    (hmap : ∀ r ∈ e, w1.eventMap r.ei.Event = w2.eventMap r.ei.Event)
    (hhook : ∀ r ∈ e, hookAnswer w1 cfg1 r = hookAnswer w2 cfg2 r)
    (hign : ∀ r ∈ e, cfg1.Ignore.checkIgnore r.ei.Path = cfg2.Ignore.checkIgnore r.ei.Path) :
    (watchEvents w1 cfg1 e).map Outcome.restarted =
        (watchEvents w2 cfg2 e).map Outcome.restarted ∧
    (watchEvents w1 cfg1 e).map Outcome.debounceTime =
        (watchEvents w2 cfg2 e).map Outcome.debounceTime := by
  unfold watchEvents
  rw [hD]
  exact loop_decision_congr w1 w2 cfg1 cfg2 _ e Time.zero hmap hhook hign

/-- Witness of C14: the writes at 0, 50 and 250 ms replayed in a world
where the working directory cannot be read: restart, no restart, restart,
in both runs. -/
theorem replay_same_decisions_witness :
    (watchEvents demoWorld demoConfigContinue
      [receivedAt demoWrite demoBase, receivedAt demoWrite (demoBase + 50 * Millisecond),
       receivedAt demoWrite (demoBase + 250 * Millisecond)]).map Outcome.restarted =
      [true, false, true] ∧
    (watchEvents demoWorld demoConfigContinue
      [receivedAt demoWrite demoBase, receivedAt demoWrite (demoBase + 50 * Millisecond),
       receivedAt demoWrite (demoBase + 250 * Millisecond)]).map Outcome.restarted =
    (watchEvents demoWorldNoWd demoConfigContinue
      [receivedAt demoWrite demoBase, receivedAt demoWrite (demoBase + 50 * Millisecond),
       receivedAt demoWrite (demoBase + 250 * Millisecond)]).map Outcome.restarted :=
  ⟨by decide,
   (replay_same_decisions demoWorld demoWorldNoWd demoConfigContinue demoConfigContinue
      [receivedAt demoWrite demoBase, receivedAt demoWrite (demoBase + 50 * Millisecond),
       receivedAt demoWrite (demoBase + 250 * Millisecond)]
      rfl (fun _ _ => rfl) (fun _ _ => rfl) (fun _ _ => rfl)).1⟩

/-! ## The debounce timestamp -/

theorem accepts_eq_true_iff (w : World) (cfg : Config) (W : Duration) (dt : Time)
    (r : Received) :
    accepts w cfg W dt r = true ↔
      ∃ info, w.eventMap r.ei.Event = some info ∧ info.Reload = true ∧
        hookAnswer w cfg r ≠ some EventBypass ∧ hookAnswer w cfg r ≠ some EventIgnore ∧
        cfg.Ignore.checkIgnore r.ei.Path = false ∧
        checkDebounce r.now.check dt W = true := by
  unfold accepts
  cases hmap : w.eventMap r.ei.Event with
  | none => simp
  | some info =>
    simp only [Bool.and_eq_true, Bool.not_eq_true', beq_eq_false_iff_ne, ne_eq,
      Option.some.injEq, exists_eq_left']
    tauto

/-- C15: a turn changes the debounce timestamp only when the event reaches
and passes the debounce check (classified with `Reload = true`, no
`EventBypass` and no `EventIgnore` from the hook, path not ignored,
`checkDebounce` true). An unmapped code, an `EventIgnore` answer, an
`EventBypass` answer, an entry with `Reload = false`, an ignored path and a
debounce rejection each leave it exactly as it was. -/
theorem debounceTime_changes_only_on_accept (w : World) (cfg : Config) (W : Duration)
    (dt : Time) (r : Received) :
    ((watchEventsTurn w cfg W dt r).debounceTime ≠ dt →
      ∃ info, w.eventMap r.ei.Event = some info ∧ info.Reload = true ∧
        hookAnswer w cfg r ≠ some EventBypass ∧ hookAnswer w cfg r ≠ some EventIgnore ∧
        cfg.Ignore.checkIgnore r.ei.Path = false ∧
        checkDebounce r.now.check dt W = true) ∧
    (w.eventMap r.ei.Event = none → (watchEventsTurn w cfg W dt r).debounceTime = dt) ∧
    (hookAnswer w cfg r = some EventIgnore →
      (watchEventsTurn w cfg W dt r).debounceTime = dt) ∧
    (hookAnswer w cfg r = some EventBypass →
      (watchEventsTurn w cfg W dt r).debounceTime = dt) ∧
    (∀ info, w.eventMap r.ei.Event = some info → info.Reload = false →
      (watchEventsTurn w cfg W dt r).debounceTime = dt) ∧
    (cfg.Ignore.checkIgnore r.ei.Path = true →
      (watchEventsTurn w cfg W dt r).debounceTime = dt) ∧
    (checkDebounce r.now.check dt W = false →
      (watchEventsTurn w cfg W dt r).debounceTime = dt) := by
  have key : ∀ (_ : accepts w cfg W dt r = false),
      (watchEventsTurn w cfg W dt r).debounceTime = dt := by
    intro h
    rw [turn_debounceTime, h]
    simp
  have hiff := accepts_eq_true_iff w cfg W dt r
  have no : ∀ (_ : ¬ ∃ info, w.eventMap r.ei.Event = some info ∧ info.Reload = true ∧
        hookAnswer w cfg r ≠ some EventBypass ∧ hookAnswer w cfg r ≠ some EventIgnore ∧
        cfg.Ignore.checkIgnore r.ei.Path = false ∧
        checkDebounce r.now.check dt W = true),
      (watchEventsTurn w cfg W dt r).debounceTime = dt := by
    intro h
    apply key
    cases ha : accepts w cfg W dt r with
    | false => rfl
    | true => exact absurd (hiff.1 ha) h
  refine ⟨?_, ?_, ?_, ?_, ?_, ?_, ?_⟩
  · intro hne
    by_contra hcon
    exact hne (no hcon)
  · intro h
    apply no
    rintro ⟨info, h1, _⟩
    rw [h] at h1
    cases h1
  · intro h
    apply no
    rintro ⟨info, _, _, _, h4, _⟩
    exact h4 h
  · intro h
    apply no
    rintro ⟨info, _, _, h3, _⟩
    exact h3 h
  · intro info h hr
    apply no
    rintro ⟨info2, h1, h2, _⟩
    rw [h] at h1
    cases h1
    rw [hr] at h2
    cases h2
  · intro h
    apply no
    rintro ⟨info, _, _, _, _, h5, _⟩
    rw [h] at h5
    cases h5
  · intro h
    apply no
    rintro ⟨info, _, _, _, _, _, h6⟩
    rw [h] at h6
    cases h6

/-- Witness of C15: from the timestamp `demoBase` and 250 ms later, an
unknown code, an ignoring hook, a bypassing hook (which restarts), a remove,
a write of `app.log` under the filter `*.log`, and a write only 50 ms later
all leave the timestamp at `demoBase`; the accepted write moves it. -/
theorem debounceTime_changes_only_on_accept_witness :
    (watchEventsTurn demoWorld demoConfig 100000000 demoBase
      (receivedAt demoUnknown (demoBase + 250 * Millisecond))).debounceTime = demoBase ∧
    (watchEventsTurn demoWorld demoConfigIgnore 100000000 demoBase
      (receivedAt demoWrite (demoBase + 250 * Millisecond))).debounceTime = demoBase ∧
    (watchEventsTurn demoWorld demoConfigBypass 100000000 demoBase
      (receivedAt demoWrite (demoBase + 250 * Millisecond))).debounceTime = demoBase ∧
    (watchEventsTurn demoWorld demoConfigBypass 100000000 demoBase
      (receivedAt demoWrite (demoBase + 250 * Millisecond))).restarts = 1 ∧
    (watchEventsTurn demoWorld demoConfig 100000000 demoBase
      (receivedAt demoRemove (demoBase + 250 * Millisecond))).debounceTime = demoBase ∧
    (watchEventsTurn demoWorld demoConfigLog 100000000 demoBase
      (receivedAt demoWriteLog (demoBase + 250 * Millisecond))).debounceTime = demoBase ∧
    (watchEventsTurn demoWorld demoConfig 100000000 demoBase
      (receivedAt demoWrite (demoBase + 50 * Millisecond))).debounceTime = demoBase ∧
    (watchEventsTurn demoWorld demoConfig 100000000 demoBase
      (receivedAt demoWrite (demoBase + 250 * Millisecond))).debounceTime ≠ demoBase ∧
    checkDebounce (demoBase + 250 * Millisecond) demoBase 100000000 = true :=
  ⟨(debounceTime_changes_only_on_accept demoWorld demoConfig 100000000 demoBase
      (receivedAt demoUnknown (demoBase + 250 * Millisecond))).2.1 rfl,
   (debounceTime_changes_only_on_accept demoWorld demoConfigIgnore 100000000 demoBase
      (receivedAt demoWrite (demoBase + 250 * Millisecond))).2.2.1 rfl,
   (debounceTime_changes_only_on_accept demoWorld demoConfigBypass 100000000 demoBase
      (receivedAt demoWrite (demoBase + 250 * Millisecond))).2.2.2.1 rfl,
   by decide,
   (debounceTime_changes_only_on_accept demoWorld demoConfig 100000000 demoBase
      (receivedAt demoRemove (demoBase + 250 * Millisecond))).2.2.2.2.1 ⟨"Remove", false⟩
      rfl rfl,
   (debounceTime_changes_only_on_accept demoWorld demoConfigLog 100000000 demoBase
      (receivedAt demoWriteLog (demoBase + 250 * Millisecond))).2.2.2.2.2.1 (by decide),
   (debounceTime_changes_only_on_accept demoWorld demoConfig 100000000 demoBase
      (receivedAt demoWrite (demoBase + 50 * Millisecond))).2.2.2.2.2.2 (by decide),
   by decide,
   match (debounceTime_changes_only_on_accept demoWorld demoConfig 100000000 demoBase
      (receivedAt demoWrite (demoBase + 250 * Millisecond))).1 (by decide) with
   | ⟨_, _, _, _, _, _, h⟩ => h⟩

/-- A classified event on which the hook does not short-circuit falls
through to lines 55 to 74. -/
theorem turn_of_not_short (w : World) (cfg : Config) (W : Duration) (dt : Time)
    (r : Received) (info : EventInfo) (hmap : w.eventMap r.ei.Event = some info)
    (h1 : hookAnswer w cfg r ≠ some EventBypass) (h2 : hookAnswer w cfg r ≠ some EventIgnore) :
    watchEventsTurn w cfg W dt r = defaultRules w cfg W dt r info := by
  cases hcb : cfg.Callback with
  | none => exact turn_of_no_hook w cfg W dt r info hmap hcb
  | some cb =>
    apply turn_of_fallthrough w cfg W dt r info cb hmap hcb
    · intro h
      exact h1 (by simp [hookAnswer, hcb, h])
    · intro h
      exact h2 (by simp [hookAnswer, hcb, h])

/-- C16 does not hold as stated: the check of line 79 reads the clock at
`demoBase` and accepts, and the timestamp stored at line 63 is the later
reading `demoBase + 1000`, not the instant the check tested. -/
theorem stored_timestamp_is_not_checked_instant :
    checkDebounce demoWriteLateSet.now.check Time.zero 100000000 = true ∧
    (watchEventsTurn demoWorld demoConfig 100000000 Time.zero demoWriteLateSet).restarts = 1 ∧
    (watchEventsTurn demoWorld demoConfig 100000000 Time.zero demoWriteLateSet).debounceTime =
      demoBase + 1000 ∧
    (watchEventsTurn demoWorld demoConfig 100000000 Time.zero demoWriteLateSet).debounceTime ≠
      demoWriteLateSet.now.check := by
  decide

/-- C16 (amended): when the debounce check accepts an event, the debounce
timestamp is set to the reading of the clock taken at line 63, a call of
`time.Now()` of its own after the one `checkDebounce` compared, and this is
done before the restart: the new timestamp is logged, then the one restart
is issued as the last effect of the turn. -/
theorem accepted_timestamp_is_reading_of_line_63 (w : World) (cfg : Config) (W : Duration)
    (dt : Time) (r : Received) (hacc : accepts w cfg W dt r = true) :
    (watchEventsTurn w cfg W dt r).debounceTime = r.now.set ∧
    ∃ pre mid : List Effect,
      (watchEventsTurn w cfg W dt r).effects =
        pre ++ [Effect.slog Level.Debug "Debounce Timer Start: %v" [Arg.time r.now.set]] ++
          mid ++ [Effect.reloadProcess] ∧
      restartCount pre = 0 ∧ restartCount mid = 0 := by
  obtain ⟨info, hmap, hr, h1, h2, hi, hchk⟩ := (accepts_eq_true_iff w cfg W dt r).1 hacc
  rw [turn_of_not_short w cfg W dt r info hmap h1 h2]
  refine ⟨by simp [defaultRules, hr, hi, hchk], ?_⟩
  refine ⟨hookEffects w cfg r ++ [Effect.checkIgnore r.ei.Path],
    (getPath w r.ei.Path).2 ++
      [Effect.slog Level.Info "File Modified: %s" [Arg.str (getPath w r.ei.Path).1],
       Effect.slog Level.Info "Reloading process..." []], ?_, ?_, ?_⟩
  · simp [defaultRules, hr, hi, hchk]
  · simp [restartCount_append, restartCount_cons, restartCount_nil, hookEffects_no_restart,
      Effect.isReload]
  · simp [restartCount_append, restartCount_cons, restartCount_nil, getPath_no_restart,
      Effect.isReload]

/-- Witness of C16 (amended): the write checked at `demoBase` stores the
reading `demoBase + 1000` of line 63. -/
theorem accepted_timestamp_is_reading_of_line_63_witness :
    accepts demoWorld demoConfig 100000000 Time.zero demoWriteLateSet = true ∧
    (watchEventsTurn demoWorld demoConfig 100000000 Time.zero demoWriteLateSet).debounceTime =
      demoWriteLateSet.now.set :=
  ⟨by decide,
   (accepted_timestamp_is_reading_of_line_63 demoWorld demoConfig 100000000 Time.zero
      demoWriteLateSet (by decide)).1⟩

/-! ## Separation of restarts -/

theorem check_le_set_of_nonDecreasing (e : List Received)
    (h : nonDecreasing (clockReadings e)) : ∀ r ∈ e, r.now.check ≤ r.now.set := by
  induction e with
  | nil => intro r hr; cases hr
  | cons x rest ih =>
    unfold nonDecreasing at h ih
    simp only [clockReadings, List.pairwise_cons] at h
    intro r hr
    rcases List.mem_cons.1 hr with hx | hx
    · rw [hx]
      exact h.2.1 x.now.set (List.mem_cons_self _ _)
    · exact ih h.2.2.2 r hx

/-- With no hook or a continuing hook a turn restarts exactly when it accepts. -/
theorem restarted_of_continues (w : World) (cfg : Config) (W : Duration) (dt : Time)
    (r : Received) (hc : hookContinues w cfg r) :
    (watchEventsTurn w cfg W dt r).restarted = accepts w cfg W dt r := by
  have ha := hookAnswer_of_continues w cfg r hc
  have hb : bypasses w cfg r = false := by
    simp [bypasses, ha.1]
  unfold Outcome.restarted
  rw [turn_restarts, hb]
  cases accepts w cfg W dt r <;> simp

/-- From any debounce timestamp `dt`, the timestamps recorded by the
restarts of the loop form a chain from `dt` with steps of more than `W`. -/
theorem loop_stamps_chain (w : World) (cfg : Config) (W : Duration) (e : List Received)
    (dt : Time) (hc : ∀ r ∈ e, hookContinues w cfg r)
    (hclock : ∀ r ∈ e, r.now.check ≤ r.now.set) :
    List.Chain (fun a b => W < b - a) dt (acceptedStamps (watchEventsLoop w cfg W dt e)) := by
  induction e generalizing dt with
  | nil => exact List.Chain.nil
  | cons r rest ih =>
    have hr := List.mem_cons_self r rest
    have hres := restarted_of_continues w cfg W dt r (hc r hr)
    have hdt := turn_debounceTime w cfg W dt r
    have ih2 := fun d => ih d (fun q hq => hc q (List.mem_cons_of_mem r hq))
      (fun q hq => hclock q (List.mem_cons_of_mem r hq))
    cases hacc : accepts w cfg W dt r with
    | false =>
      rw [hacc] at hres hdt
      simp only [Bool.false_eq_true, if_false] at hdt
      simp only [watchEventsLoop, acceptedStamps, List.filter_cons, hres,
        Bool.false_eq_true, if_false, hdt]
      exact ih2 dt
    | true =>
      rw [hacc] at hres hdt
      simp only [if_true] at hdt
      obtain ⟨info, _, _, _, _, _, hchk⟩ := (accepts_eq_true_iff w cfg W dt r).1 hacc
      rw [checkDebounce_eq_true_iff] at hchk
      have hle := hclock r hr
      simp only [watchEventsLoop, acceptedStamps, List.filter_cons, hres, if_true,
        List.map_cons, hdt]
      refine List.Chain.cons ?_ (ih2 r.now.set)
      linarith

theorem chain_consecutive {R : Time → Time → Prop} (l : List Time) (d : Time)
    (h : List.Chain R d l) (i : Nat) (a b : Time)
    (ha : l[i]? = some a) (hb : l[i + 1]? = some b) : R a b := by
  induction l generalizing d i with
  | nil => simp at ha
  | cons x t ih =>
    rw [List.chain_cons] at h
    cases i with
    | zero =>
      simp only [List.getElem?_cons_zero, Option.some.injEq] at ha
      simp only [zero_add, List.getElem?_cons_succ] at hb
      cases t with
      | nil => simp at hb
      | cons y t2 =>
        simp only [List.getElem?_cons_zero, Option.some.injEq] at hb
        rw [List.chain_cons] at h
        rw [← ha, ← hb]
        exact h.2.1
    | succ j =>
      simp only [List.getElem?_cons_succ] at ha hb
      exact ih x h.2 j ha hb

/-- C17: with no hook, or a hook that answers `EventContinue` on every event,
for every list of received events, every `Debounce` and every non-decreasing
clock, the debounce timestamps recorded by two consecutive restarts of
`watchEvents` differ by more than the window. -/
theorem restarts_more_than_window_apart (w : World) (cfg : Config) (e : List Received)
    (hc : ∀ r ∈ e, hookContinues w cfg r) (hclock : nonDecreasing (clockReadings e))
    (i : Nat) (a b : Time)
    (ha : (acceptedStamps (watchEvents w cfg e))[i]? = some a)
    (hb : (acceptedStamps (watchEvents w cfg e))[i + 1]? = some b) :
    debounceThreshold cfg.Debounce < b - a :=
  chain_consecutive _ Time.zero
    (loop_stamps_chain w cfg (debounceThreshold cfg.Debounce) e Time.zero hc
      (check_le_set_of_nonDecreasing e hclock)) i a b ha hb

/-- Witness of C17: writes at 0, 50 and 250 ms after `demoBase`, window
100 ms: the two restarts are recorded 250 ms apart. -/
theorem restarts_more_than_window_apart_witness :
    acceptedStamps (watchEvents demoWorld demoConfig
      [receivedAt demoWrite demoBase, receivedAt demoWrite (demoBase + 50 * Millisecond),
       receivedAt demoWrite (demoBase + 250 * Millisecond)]) =
      [demoBase, demoBase + 250 * Millisecond] ∧
    debounceThreshold demoConfig.Debounce <
      (demoBase + 250 * Millisecond) - demoBase :=
  ⟨by decide,
   restarts_more_than_window_apart demoWorld demoConfig
      [receivedAt demoWrite demoBase, receivedAt demoWrite (demoBase + 50 * Millisecond),
       receivedAt demoWrite (demoBase + 250 * Millisecond)]
      (fun _ _ => trivial) (by unfold nonDecreasing; decide) 0 demoBase
      (demoBase + 250 * Millisecond) (by decide) (by decide)⟩

/-! ## Updates move forward -/

/-- C18 does not hold as stated: with `Debounce = -1` the window is
negative, and on a clock that stands still (non-decreasing) two writes are
both accepted; the second update stores `demoBase` over `demoBase`, a value
that is not strictly later than the one held before. -/
theorem negative_window_update_not_later :
    debounceThreshold demoConfigNegative.Debounce = -1000000 ∧
    nonDecreasing (clockReadings
      [receivedAt demoWrite demoBase, receivedAt demoWrite demoBase]) ∧
    (watchEvents demoWorld demoConfigNegative
      [receivedAt demoWrite demoBase, receivedAt demoWrite demoBase]).map
        Outcome.debounceTime = [demoBase, demoBase] ∧
    accepts demoWorld demoConfigNegative (debounceThreshold demoConfigNegative.Debounce)
      demoBase (receivedAt demoWrite demoBase) = true ∧
    ¬ (demoBase < (watchEventsTurn demoWorld demoConfigNegative
        (debounceThreshold demoConfigNegative.Debounce) demoBase
        (receivedAt demoWrite demoBase)).debounceTime) := by
  refine ⟨by decide, by unfold nonDecreasing; decide, by decide, by decide, by decide⟩

/-- C18 (amended): for every non-negative debounce window and every
non-decreasing sequence of clock readings, each update of the debounce
timestamp (a turn that passes the debounce check) sets it to a value
strictly later than the value it held before the update. -/
theorem update_strictly_later (w : World) (cfg : Config) (W : Duration) (dt : Time)
    (r : Received) (hW : 0 ≤ W) (hclock : nonDecreasing (clockReadings [r]))
    (hacc : accepts w cfg W dt r = true) :
    dt < (watchEventsTurn w cfg W dt r).debounceTime := by
  have hle := check_le_set_of_nonDecreasing [r] hclock r (List.mem_cons_self r [])
  obtain ⟨info, _, _, _, _, _, hchk⟩ := (accepts_eq_true_iff w cfg W dt r).1 hacc
  rw [checkDebounce_eq_true_iff] at hchk
  rw [turn_debounceTime, hacc]
  simp only [if_true]
  linarith

/-- Witness of C18 (amended): window 100 ms, a write 250 ms after the
timestamp `demoBase` moves the timestamp strictly forward. -/
theorem update_strictly_later_witness :
    accepts demoWorld demoConfig 100000000 demoBase
      (receivedAt demoWrite (demoBase + 250 * Millisecond)) = true ∧
    demoBase < (watchEventsTurn demoWorld demoConfig 100000000 demoBase
      (receivedAt demoWrite (demoBase + 250 * Millisecond))).debounceTime :=
  ⟨by decide,
   update_strictly_later demoWorld demoConfig 100000000 demoBase
      (receivedAt demoWrite (demoBase + 250 * Millisecond)) (by decide)
      (by unfold nonDecreasing; decide) (by decide)⟩

/-! ## The kind handed to the hook -/

/-- C19: on a classified event with a hook configured, the hook is called
once and the kind it receives is the `CallbackMap` entry of the raw code,
or `Create` (0) when `CallbackMap` has no entry for the code; the kind does
not depend on the `eventMap` entry, which is looked up separately. -/
theorem hook_kind_from_CallbackMap (w : World) (cfg : Config) (W : Duration) (dt : Time)
    (r : Received) (info : EventInfo) (cb : EventCallback → EventHandle)
    (hmap : w.eventMap r.ei.Event = some info) (hcb : cfg.Callback = some cb) :
    (watchEventsTurn w cfg W dt r).effects.filter Effect.isCallback =
      [Effect.Callback
        ⟨(w.CallbackMap r.ei.Event).getD Create, r.now.callback, (getPath w r.ei.Path).1⟩] ∧
    (∀ kind, w.CallbackMap r.ei.Event = some kind →
      (watchEventsTurn w cfg W dt r).effects.filter Effect.isCallback =
        [Effect.Callback ⟨kind, r.now.callback, (getPath w r.ei.Path).1⟩]) ∧
    (w.CallbackMap r.ei.Event = none →
      (watchEventsTurn w cfg W dt r).effects.filter Effect.isCallback =
        [Effect.Callback ⟨Create, r.now.callback, (getPath w r.ei.Path).1⟩]) ∧
    (∀ info2 : EventInfo,
      (watchEventsTurn { w with eventMap := fun _ => some info2 } cfg W dt
          r).effects.filter Effect.isCallback =
        (watchEventsTurn w cfg W dt r).effects.filter Effect.isCallback) := by
  have h := turn_callbacks w cfg W dt r info cb hmap hcb
  refine ⟨?_, ?_, ?_, ?_⟩
  · rw [h]; rfl
  · intro kind hk
    rw [h]
    simp [callbackArg, hk]
  · intro hk
    rw [h]
    simp [callbackArg, hk, Create]
  · intro info2
    rw [h, turn_callbacks { w with eventMap := fun _ => some info2 } cfg W dt r info2 cb
      rfl hcb]
    simp [callbackArg, getPath, stripCurrentDirectory]

/-- Witness of C19: a remove is classified by `eventMap`; with an empty
`CallbackMap` the hook receives the kind `Create`, and with the entry
`Remove` it receives `Remove`. -/
theorem hook_kind_from_CallbackMap_witness :
    demoWorldNoKinds.eventMap demoRemove.Event = some ⟨"Remove", false⟩ ∧
    demoWorldNoKinds.CallbackMap demoRemove.Event = none ∧
    (watchEventsTurn demoWorldNoKinds demoConfigContinue 100000000 Time.zero
        (receivedAt demoRemove demoBase)).effects.filter Effect.isCallback =
      [Effect.Callback ⟨Create, demoBase, "main.go"⟩] ∧
    (watchEventsTurn demoWorld demoConfigContinue 100000000 Time.zero
        (receivedAt demoRemove demoBase)).effects.filter Effect.isCallback =
      [Effect.Callback ⟨Remove, demoBase, "main.go"⟩] :=
  ⟨rfl, rfl,
   (hook_kind_from_CallbackMap demoWorldNoKinds demoConfigContinue 100000000 Time.zero
      (receivedAt demoRemove demoBase) ⟨"Remove", false⟩ (fun _ => EventContinue)
      rfl rfl).2.2.1 rfl,
   (hook_kind_from_CallbackMap demoWorld demoConfigContinue 100000000 Time.zero
      (receivedAt demoRemove demoBase) ⟨"Remove", false⟩ (fun _ => EventContinue)
      rfl rfl).2.1 Remove rfl⟩

end Refresh
